import Mathlib

/-!
Verification development for the WebThingsIO zwave-adapter classification and
value-binding engine.

The definitions below are a shallow embedding of the JavaScript sources:
`src/zwave-classifier.js`, `src/zwave-node.js` and the ZWaveProperty module
(`src/unnamed/part_005`).  JavaScript numbers are modelled as rationals (ℚ),
JS strings as Lean `String`, objects keyed by value-id strings as association
lists in insertion order (JS object iteration order for the non-numeric keys
used here is insertion order).  Raw protocol writes issued through the
`zwave` driver object are collected in explicit effect lists.
-/

namespace ZWaveAdapter

/-- A JavaScript value, restricted to the shapes the embedded code handles. -/
inductive JsVal where
  | num (q : ℚ)
  | str (s : String)
  | bool (b : Bool)
  | undef
deriving DecidableEq, Repr

/-- One raw protocol value (an OpenZWave "zwValue" object).  `values` is the
optional enumerated string catalog (present for list-typed values), `vtype`
is the zwValue `type` field (`list`, `int`, ...), `inst` is the JS field
`instance`. -/
structure ZwValue where
  node_id : Nat
  class_id : Nat
  inst : Nat
  index : Nat
  value : JsVal
  values : Option (List String) := none
  vtype : String := ""
  units : String := ""
  read_only : Bool := false
deriving DecidableEq, Repr

/-- The per-node store of raw values: `node.zwValues`, an object keyed by the
value-id string, iterated in insertion order. -/
abbrev ValueStore := List (String × ZwValue)

/-- Object lookup `node.zwValues[valueId]`. -/
def storeLookup (store : ValueStore) (valueId : String) : Option ZwValue :=
  (store.find? (fun p => p.1 = valueId)).map (·.2)

/-- `ZWaveNode.findValueId` (src/zwave-node.js): returns the key of the first
stored value matching the command class and the optional instance/index
filters, or none. -/
def findValueId (store : ValueStore) (commandClass : Nat)
    (inst? : Option Nat) (index? : Option Nat) : Option String :=
  (store.find? (fun p =>
    p.2.class_id = commandClass ∧
    (∀ i ∈ inst?, p.2.inst = i) ∧
    (∀ i ∈ index?, p.2.index = i))).map (·.1)

/-- `COMMAND_CLASS` constants (src/unnamed/part_004). -/
def CC_SWITCH_BINARY : Nat := 37
def CC_SWITCH_MULTILEVEL : Nat := 38
def CC_SENSOR_BINARY : Nat := 48
def CC_SENSOR_MULTILEVEL : Nat := 49
def CC_COLOR : Nat := 51
def CC_METER : Nat := 50
def CC_THERMOSTAT_MODE : Nat := 64
def CC_THERMOSTAT_OPERATING_STATE : Nat := 66
def CC_THERMOSTAT_SETPOINT : Nat := 67
def CC_THERMOSTAT_FAN_MODE : Nat := 68
def CC_THERMOSTAT_FAN_STATE : Nat := 69
def CC_CENTRAL_SCENE : Nat := 91
def CC_DOOR_LOCK : Nat := 98
def CC_CONFIGURATION : Nat := 112
def CC_ALARM : Nat := 113
def CC_BATTERY : Nat := 128
def CC_WAKE_UP : Nat := 132

/-! ### ZWaveProperty marshalling functions (src/unnamed/part_005) -/

/-- JavaScript `Math.round`: round half toward positive infinity. -/
def jsRound (q : ℚ) : ℤ := ⌊q + 1/2⌋

/-- `ZWaveProperty.parseLevelZwValue`.  The source mutates `this.level` and
returns `[percent, logString]`; we return `(percent, level)`. -/
def parseLevelZwValue (zwData : ℚ) : ℚ × ℚ :=
  let level := max zwData 0
  let percent := if zwData ≥ 99 then 100 else level
  (percent, level)

/-- The min/max clamping steps of `setLevelValue`: `percent` is raised to the
declared `min` and lowered to the declared `max` when those own-properties
are present. -/
def clampMinMax (min? max? : Option ℚ) (percent : ℚ) : ℚ :=
  let p1 := match min? with
    | some m => max percent m
    | none => percent
  match max? with
  | some m => min p1 m
  | none => p1

/-- `ZWaveProperty.setLevelValue`.  `min?`/`max?` model the optional `min` and
`max` own-properties checked with `hasOwnProperty`; the result is the new
`this.level`, the raw value to be written.  (The source's non-number early
return is outside this model: the argument here is always a number.) -/
def setLevelValue (min? max? : Option ℚ) (percent : ℚ) : ℤ :=
  jsRound (min (max (clampMinMax min? max? percent) 0) 99)

/-- `ZWaveProperty.setConfigListValue`.  Input: the raw value bound to the
property (`this.device.zwValues[this.valueId]`, which may be absent) and the
semantic string.  Output: `none` models a thrown TypeError (reading
`.values` of a value that has no catalog); `some (idx, log)` is the returned
`[zwData, logString]` pair.  JS `indexOf` returning -1 maps the value to the
fallback index 0. -/
def setConfigListValue (zwValue? : Option ZwValue) (value : String) :
    Option (ℤ × String) :=
  match zwValue? with
  | some zwValue =>
    match zwValue.values with
    | some catalog =>
      match catalog.indexOf? value with
      | some idx => some ((idx : ℤ), value ++ " (" ++ toString idx ++ ")")
      | none => some (0, value ++ " not found - using 0")
    | none => none
  | none => some (0, "valueId not found - using 0")

/-- `ZWaveProperty.parseTemperatureZwValue`.  Looks up the bound raw value
and converts Fahrenheit to Celsius; any other declared unit decodes
unchanged.  `none` models the TypeError when the bound value is absent. -/
def parseTemperatureZwValue (store : ValueStore) (valueId : String)
    (zwData : ℚ) : Option ℚ :=
  match storeLookup store valueId with
  | some zwValue =>
    if zwValue.units = "F" then some ((zwData - 32) / (9/5)) else some zwData
  | none => none

/-! ### `ZWaveProperty.setValue` and `ZWaveNode.notifyPropertyChanged`

`setValue` (src/unnamed/part_005 lines 313-374) either: resolves a synthetic
(no value-id) property locally; rejects a write to a read-only raw value; or
encodes and issues a configuration / raw protocol write.
`notifyPropertyChanged` (src/zwave-node.js lines 302-317) resolves the
pending deferred set with the property's current cached value.  The
`updated` reaction hooks are modelled separately (light color section). -/

/-- Effects emitted by a `setValue` call, in order. -/
inductive SetEffect where
  | configWrite (nodeId index : Nat) (data : JsVal) (size : Nat)
  | rawWrite (nodeId classId inst index : Nat) (data : JsVal)
  | notify
deriving DecidableEq, Repr

/-- The observable outcome of the promise returned by `setValue`. -/
inductive SetOutcome where
  | pending
  | resolved (v : JsVal)
  | rejected
deriving DecidableEq, Repr

/-- The mutable per-property state that `setValue` touches: the cached
`this.value` and the `fireAndForget` flag (set by the classifier). -/
structure PropState where
  name : String
  valueId : Option String
  value : JsVal
  fireAndForget : Bool := false
deriving DecidableEq, Repr

/-- Size selection for configuration writes (`setValue`, lines 345-354). -/
def configSize (vtype : String) : Nat :=
  if vtype = "int" then 4 else if vtype = "list" then 1 else 2

/-- `ZWaveProperty.setValue`, with the encoder (`this.setZwValueFromValue`)
passed as a function argument.  Returns the new property state, the emitted
effects and the promise outcome; `none` models the TypeError raised when a
bound raw value is absent from the store. -/
def setValue (store : ValueStore) (encode : JsVal → JsVal)
    (p : PropState) (propertyValue : JsVal) :
    Option (PropState × List SetEffect × SetOutcome) :=
  match p.valueId with
  | none =>
    -- Synthetic property: cache the value, notify; the deferred set is
    -- resolved by notifyPropertyChanged with the cached value.
    some ({ p with value := propertyValue }, [SetEffect.notify],
          SetOutcome.resolved propertyValue)
  | some valueId =>
    match storeLookup store valueId with
    | none => none
    | some zwValue =>
      if zwValue.read_only then
        some (p, [], SetOutcome.rejected)
      else
        let p' := { p with value := propertyValue }
        let zwValueData := encode propertyValue
        if zwValue.class_id = CC_CONFIGURATION then
          some (p',
            [SetEffect.configWrite zwValue.node_id zwValue.index zwValueData
               (configSize zwValue.vtype),
             SetEffect.notify],
            SetOutcome.resolved propertyValue)
        else if p.fireAndForget then
          some (p',
            [SetEffect.rawWrite zwValue.node_id zwValue.class_id zwValue.inst
               zwValue.index zwValueData,
             SetEffect.notify],
            SetOutcome.resolved propertyValue)
        else
          some (p',
            [SetEffect.rawWrite zwValue.node_id zwValue.class_id zwValue.inst
               zwValue.index zwValueData],
            SetOutcome.pending)

/-! ### The classifier (src/zwave-classifier.js), modelled at the level of
property bindings created per node.

`addProperty` is the sole creation path for property bindings
(`node.properties.set` occurs nowhere else), so classification is embedded
as: each `init*` routine contributes a list of binding requests — mirroring
the source's control flow and call order, computed from the node's hardware
identity and raw value store, which classification never mutates — and the
property map is the fold of `addProperty` over those requests.  Metadata
stored on the returned property objects (`valueListMap`, `info`, hooks) does
not influence which bindings are created and is not tracked here. -/

/-- The number stored in a JS value (`zwValue.value` where the code expects
a number). -/
def jsNum (v : JsVal) : ℚ :=
  match v with
  | JsVal.num q => q
  | _ => 0

/-- Hardware identity fields the classifier consults (`node.zwInfo`, plus
the generic type the driver reports for the node, which `classifyInternal`
re-reads identically on every call). -/
structure ZwInfo where
  nodeId : Nat
  manufacturerId : String
  productId : String
  manufacturer : String
  genericType : Nat
deriving DecidableEq, Repr

/-- One forced configuration write of a quirk. -/
structure SetConfig where
  paramId : Nat
  value : ℚ
  size : Nat
deriving DecidableEq, Repr

/-- The identity predicate of a quirk: only the keys present on the JS
`zwInfo` object are checked. -/
structure QuirkZwInfo where
  manufacturerId : Option String := none
  productId : Option String := none
  productIds : Option (List String) := none
deriving DecidableEq, Repr

/-- One entry of the static `QUIRKS` catalog. -/
structure Quirk where
  zwInfo : QuirkZwInfo
  excludeProperties : Option (List String) := none
  setConfigs : Option (List SetConfig) := none
  disablePoll : Option Bool := none
  isLight : Option Bool := none
deriving DecidableEq, Repr

def AEOTEC_MANUFACTURER_ID : String := "0x0086"
def AEOTEC_ZW096_PRODUCT_ID : String := "0x0060"
def AEOTEC_ZW099_PRODUCT_ID : String := "0x0063"
def AEOTEC_ZW100_PRODUCT_ID : String := "0x0064"
def AEOTEC_ZW111_PRODUCT_ID : String := "0x006f"
def AEOTEC_ZW116_PRODUCT_ID : String := "0x0074"
def AEOTEC_ZW130_PRODUCT_ID : String := "0x0082"
def AEOTEC_ZW132_PRODUCT_ID : String := "0x0084"
def AEOTEC_ZW139_PRODUCT_ID : String := "0x008b"
def AEOTEC_ZW140_PRODUCT_ID : String := "0x008c"
def AEOTEC_ZW141_PRODUCT_ID : String := "0x008d"
def ECOLINK_MANUFACTURER_ID : String := "0x014a"
def ECOLINK_FLOOD_FREEZE_PRODUCT_ID : String := "0x0010"
def FIRST_ALERT_MANUFACTURER_ID : String := "0x0138"
def FIRST_ALERT_ZCOMBO_PRODUCT_ID : String := "0x0002"

/-- The static quirk catalog (src/zwave-classifier.js lines 254-373). -/
def QUIRKS : List Quirk := [
  { zwInfo := { manufacturerId := some AEOTEC_MANUFACTURER_ID },
    excludeProperties := some ["current"] },
  { zwInfo := { manufacturerId := some AEOTEC_MANUFACTURER_ID,
                productId := some AEOTEC_ZW096_PRODUCT_ID },
    excludeProperties := some ["level"] },
  { zwInfo := { manufacturerId := some AEOTEC_MANUFACTURER_ID,
                productIds := some [AEOTEC_ZW096_PRODUCT_ID,
                                    AEOTEC_ZW099_PRODUCT_ID,
                                    AEOTEC_ZW111_PRODUCT_ID,
                                    AEOTEC_ZW132_PRODUCT_ID] },
    setConfigs := some [⟨80, 2, 1⟩, ⟨90, 1, 1⟩, ⟨91, 25, 2⟩, ⟨92, 5, 1⟩,
                        ⟨101, 0, 4⟩, ⟨102, 0, 4⟩, ⟨103, 0, 4⟩],
    disablePoll := some true,
    isLight := some false },
  { zwInfo := { manufacturerId := some AEOTEC_MANUFACTURER_ID,
                productIds := some [AEOTEC_ZW116_PRODUCT_ID,
                                    AEOTEC_ZW139_PRODUCT_ID,
                                    AEOTEC_ZW140_PRODUCT_ID,
                                    AEOTEC_ZW141_PRODUCT_ID] },
    setConfigs := some [⟨80, 2, 1⟩],
    disablePoll := some true,
    isLight := some false },
  { zwInfo := { manufacturerId := some AEOTEC_MANUFACTURER_ID,
                productId := some AEOTEC_ZW100_PRODUCT_ID },
    excludeProperties := some ["on"],
    setConfigs := some [⟨5, 1, 1⟩, ⟨40, 1, 1⟩, ⟨41, 327936, 4⟩] },
  { zwInfo := { manufacturerId := some AEOTEC_MANUFACTURER_ID,
                productId := some AEOTEC_ZW130_PRODUCT_ID },
    setConfigs := some [⟨4, 2, 1⟩] }]

/-- `quirkMatches` (src/zwave-classifier.js lines 375-389): every key present
on the quirk's `zwInfo` must match the node (`productIds` via membership). -/
def quirkMatches (quirk : Quirk) (info : ZwInfo) : Bool :=
  (quirk.zwInfo.manufacturerId.all (fun m => info.manufacturerId == m)) &&
  (quirk.zwInfo.productId.all (fun p => info.productId == p)) &&
  (quirk.zwInfo.productIds.all (fun ps => ps.contains info.productId))

/-- One property-binding request: the arguments of an `addProperty` call.
Of the property description only the `unit` field is tracked. -/
structure PropReq where
  name : String
  valueId : Option String := none
  unit : Option String := none
  setFn : Option String := none
  parseFn : Option String := none
deriving DecidableEq, Repr

/-- The quirk-suppression scan at the top of `ZWaveClassifier.addProperty`
(lines 739-750): some quirk with an `excludeProperties` list matches the
node and lists the intended name. -/
def excludedByQuirk (info : ZwInfo) (name : String) : Bool :=
  QUIRKS.any (fun q =>
    match q.excludeProperties with
    | some l => quirkMatches q info && l.contains name
    | none => false)

/-- JS `Map.set` semantics for `node.properties.set(name, property)`:
replace in place when the key exists, append otherwise. -/
def propSet (props : List (String × PropReq)) (name : String) (req : PropReq) :
    List (String × PropReq) :=
  if props.any (fun p => p.1 == name) then
    props.map (fun p => if p.1 == name then (name, req) else p)
  else
    props ++ [(name, req)]

/-- `ZWaveClassifier.addProperty` (lines 737-762): skip the binding when a
matching quirk excludes the name, otherwise create it and store it under its
name. -/
def addProperty (info : ZwInfo) (props : List (String × PropReq))
    (req : PropReq) : List (String × PropReq) :=
  if excludedByQuirk info req.name then props
  else propSet props req.name req

/-- Run a sequence of binding-creation requests through `addProperty`. -/
def applyReqs (info : ZwInfo) (props : List (String × PropReq))
    (reqs : List PropReq) : List (String × PropReq) :=
  reqs.foldl (addProperty info) props

/-- The binding names present on a node. -/
def propKeys (props : List (String × PropReq)) : List String :=
  props.map (·.1)

/-- `node.findValueId(cc, 1, idx)`: the instance-1 lookup the classifier
uses almost everywhere. -/
def find1 (store : ValueStore) (cc idx : Nat) : Option String :=
  findValueId store cc (some 1) (some idx)

/-- `ZWaveNode.makeValueId`. -/
def makeValueId (info : ZwInfo) (cc inst idx : Nat) : String :=
  toString info.nodeId ++ "-" ++ toString cc ++ "-" ++ toString inst ++ "-" ++
    toString idx

/-- `nodeHasAeotecS1S2Mode` (src/zwave-classifier.js lines 50-62). -/
def nodeHasAeotecS1S2Mode (info : ZwInfo) : Bool :=
  info.manufacturerId == AEOTEC_MANUFACTURER_ID &&
  (info.productId == AEOTEC_ZW111_PRODUCT_ID ||
   info.productId == AEOTEC_ZW116_PRODUCT_ID ||
   info.productId == AEOTEC_ZW132_PRODUCT_ID ||
   info.productId == AEOTEC_ZW139_PRODUCT_ID ||
   info.productId == AEOTEC_ZW140_PRODUCT_ID ||
   info.productId == AEOTEC_ZW141_PRODUCT_ID)

/-- `addConfigList`: requires both the value-id and the stored value. -/
def addConfigListReqs (store : ValueStore) (paramId : Nat) : List PropReq :=
  match find1 store CC_CONFIGURATION paramId with
  | none => []
  | some valueId =>
    match storeLookup store valueId with
    | none => []
    | some _ =>
      [{ name := "config-" ++ toString paramId, valueId := some valueId,
         setFn := some "setConfigListValue",
         parseFn := some "parseConfigListZwValue" }]

/-- `addConfigLevel`. -/
def addConfigLevelReqs (store : ValueStore) (paramId : Nat) (unit : String) :
    List PropReq :=
  match find1 store CC_CONFIGURATION paramId with
  | none => []
  | some valueId =>
    [{ name := "config-" ++ toString paramId, valueId := some valueId,
       unit := some unit }]

/-- `addConfigColorRGBX`. -/
def addConfigColorRGBXReqs (store : ValueStore) (paramId : Nat) :
    List PropReq :=
  match find1 store CC_CONFIGURATION paramId with
  | none => []
  | some valueId =>
    [{ name := "config-" ++ toString paramId, valueId := some valueId,
       setFn := some "setConfigRGBXValue",
       parseFn := some "parseConfigRGBXZwValue" }]

/-- `ZWaveClassifier.initSwitch` (lines 1799-1963): the binding-creation
requests for one outlet, in call order. -/
def initSwitchReqs (info : ZwInfo) (store : ValueStore)
    (binarySwitchValueId levelValueId : Option String) (suffix : String) :
    List PropReq :=
  (match binarySwitchValueId with
   | some bs =>
     [{ name := "on" ++ suffix, valueId := some bs }] ++
     (match levelValueId with
      | some lvl =>
        [{ name := "level" ++ suffix, valueId := some lvl,
           unit := some "percent", setFn := some "setLevelValue",
           parseFn := some "parseLevelZwValue" }]
      | none => []) ++
     (if suffix == "" && nodeHasAeotecS1S2Mode info then
        addConfigListReqs store 120 ++ addConfigListReqs store 121
      else [])
   | none =>
     [{ name := "on" ++ suffix, valueId := levelValueId,
        setFn := some "setOnOffLevelValue",
        parseFn := some "parseOnOffLevelZwValue" },
      { name := "level" ++ suffix, valueId := levelValueId,
        unit := some "percent", setFn := some "setOnOffLevelValue",
        parseFn := some "parseOnOffLevelZwValue" }]) ++
  (match find1 store CC_METER 2 with
   | some p => [{ name := "instantaneousPower" ++ suffix, valueId := some p,
                  unit := some "watt" }]
   | none => []) ++
  (match find1 store CC_METER 4 with
   | some p => [{ name := "voltage" ++ suffix, valueId := some p,
                  unit := some "volt" }]
   | none => []) ++
  (match find1 store CC_METER 5 with
   | some p => [{ name := "current" ++ suffix, valueId := some p,
                  unit := some "ampere" }]
   | none => [])

/-- `ZWaveClassifier.initLight` (lines 1318-1478): the bindings created for
a color-capable light; channel bindings are gated on the capability bits of
the color-capabilities raw value. -/
def initLightReqs (_info : ZwInfo) (store : ValueStore)
    (colorCapabilitiesValueId : String) (levelValueId : Option String) :
    List PropReq :=
  match storeLookup store colorCapabilitiesValueId with
  | none => []
  | some zv =>
    let colorCapability := (⌊jsNum zv.value⌋).toNat
    let colorValueId := find1 store CC_COLOR 0
    [{ name := "on", valueId := levelValueId,
       setFn := some "setOnOffLevelValue",
       parseFn := some "parseOnOffLevelZwValue" },
     { name := "_colorHex", valueId := colorValueId,
       setFn := some "setRRGGBBWWCWColorValue",
       parseFn := some "parseRRGGBBWWCWColorValue" }] ++
    (if colorCapability &&& 28 ≠ 0 then [{ name := "color" }] else []) ++
    (if colorCapability &&& 1 ≠ 0 then
       [{ name := "warmLevel", unit := some "percent" }] else []) ++
    (if colorCapability &&& 2 ≠ 0 then
       [{ name := "coolLevel", unit := some "percent" }] else [])

/-- `ZWaveClassifier.initBinarySensor` (lines 1966-1996). -/
def initBinarySensorReqs (binarySensorValueId : Option String) :
    List PropReq :=
  [{ name := "on", valueId := binarySensorValueId },
   { name := "open", valueId := binarySensorValueId }]

/-- `ZWaveClassifier.initSensorAlarm` (lines 1480-1580). -/
def initSensorAlarmReqs (info : ZwInfo) (store : ValueStore) : List PropReq :=
  [{ name := "_alarmType", valueId := find1 store CC_ALARM 512 },
   { name := "_alarmLevel", valueId := find1 store CC_ALARM 513 }] ++
  (if info.manufacturerId == FIRST_ALERT_MANUFACTURER_ID &&
      info.productId == FIRST_ALERT_ZCOMBO_PRODUCT_ID then
     [{ name := "smoke" }, { name := "co" }]
   else [])

/-- `ZWaveNode.getSceneCount`. -/
def getSceneCount (store : ValueStore) : ℚ :=
  match find1 store CC_CENTRAL_SCENE 256 with
  | some vid => jsNum (((storeLookup store vid).map (·.value)).getD JsVal.undef)
  | none => 0

/-- `addCentralSceneOnProperty` (lines 1144-1169). -/
def addCentralSceneOnReq (buttonNum : Nat) : PropReq :=
  if buttonNum < 2 then { name := "on" }
  else { name := "on" ++ toString buttonNum }

/-- `addCentralSceneLevelProperty` (lines 1171-1202). -/
def addCentralSceneLevelReq (buttonNum : Nat) : PropReq :=
  if buttonNum < 2 then { name := "level", unit := some "percent" }
  else { name := "level" ++ toString buttonNum, unit := some "percent" }

/-- `addCentralSceneProperty` (lines 1105-1142), binding part. -/
def addCentralScenePropReq (store : ValueStore) (buttonNum : Nat) : PropReq :=
  { name := "_scene" ++ toString buttonNum,
    valueId := find1 store CC_CENTRAL_SCENE buttonNum }

/-- `ZWaveClassifier.initCentralScene` (lines 1005-1071). -/
def initCentralSceneReqs (info : ZwInfo) (store : ValueStore) : List PropReq :=
  if getSceneCount store == 2 then
    [addCentralSceneOnReq 0, addCentralSceneLevelReq 0,
     addCentralScenePropReq store 1, addCentralScenePropReq store 2]
  else if info.manufacturerId == AEOTEC_MANUFACTURER_ID &&
          info.productId == AEOTEC_ZW130_PRODUCT_ID then
    ((List.range' 1 4).map (fun b =>
       [addCentralSceneOnReq b, addCentralSceneLevelReq b,
        addCentralScenePropReq store b])).flatten ++
    [{ name := "_slideStart",
       valueId := some (makeValueId info CC_CONFIGURATION 1 9) },
     { name := "_slideEnd",
       valueId := some (makeValueId info CC_CONFIGURATION 1 10) }] ++
    addConfigListReqs store 1 ++ addConfigListReqs store 2 ++
    addConfigColorRGBXReqs store 5
  else []

/-- `ZWaveClassifier.initEntryControl` (lines 1998-2101), binding part. -/
def initEntryControlReqs (store : ValueStore)
    (doorLockValueId : Option String) : List PropReq :=
  (match doorLockValueId with
   | some dl => [{ name := "locked" },
                 { name := "_lockedInternal", valueId := some dl }]
   | none => []) ++
  (match find1 store CC_ALARM 512 with
   | some alarm => [{ name := "_alarmType", valueId := some alarm }]
   | none => [])

/-- `ZWaveClassifier.initThermostat` (lines 2103-2156) with the per-helper
raw-value existence checks inlined. -/
def initThermostatReqs (store : ValueStore) : List PropReq :=
  (match find1 store CC_THERMOSTAT_OPERATING_STATE 0 with
   | some vid =>
     if (storeLookup store vid).isSome then
       [{ name := "heating", valueId := some vid,
          parseFn := some "parseZwStringToLowerCase" }]
     else []
   | none => []) ++
  (match find1 store CC_THERMOSTAT_MODE 0 with
   | some vid =>
     if (storeLookup store vid).isSome then
       [{ name := "thermostatMode", valueId := some vid,
          setFn := some "setLowerCaseValue",
          parseFn := some "parseZwStringToLowerCase" }]
     else []
   | none => []) ++
  (match find1 store CC_THERMOSTAT_SETPOINT 1 with
   | some vid =>
     [{ name := "heatingTargetTemperature", valueId := some vid,
        unit := some "degree celsius", setFn := some "setTemperatureValue",
        parseFn := some "parseTemperatureZwValue" }]
   | none => []) ++
  (match find1 store CC_THERMOSTAT_SETPOINT 2 with
   | some vid =>
     [{ name := "coolingTargetTemperature", valueId := some vid,
        unit := some "degree celsius", setFn := some "setTemperatureValue",
        parseFn := some "parseTemperatureZwValue" }]
   | none => []) ++
  (match find1 store CC_THERMOSTAT_FAN_MODE 0 with
   | some vid =>
     if (storeLookup store vid).isSome then
       [{ name := "fanMode", valueId := some vid }]
     else []
   | none => []) ++
  (match find1 store CC_THERMOSTAT_FAN_STATE 0 with
   | some vid =>
     if (storeLookup store vid).isSome then
       [{ name := "fanState", valueId := some vid }]
     else []
   | none => [])

/-- One entry of the `NOTIFICATION_SENSOR` tables.  `key` is the object key
(the notification type, used as the ALARM-class index). -/
structure NotificationSensor where
  key : Nat
  name : String
  propertyName : String
  valueListMap : Option (List Bool) := none
  valueMap : Option (List String) := none
  addValueId2 : Bool := false
deriving DecidableEq, Repr

/-- `NOTIFICATION_SENSOR` (lines 88-180), in the ascending numeric key order
JS iterates integer-like object keys in. -/
def NOTIFICATION_SENSOR : List NotificationSensor := [
  { key := 1, name := "smoke", propertyName := "on",
    valueListMap := some [false, true] },
  { key := 2, name := "co", propertyName := "co",
    valueListMap := some [false, true] },
  { key := 4, name := "overheat", propertyName := "overheat",
    valueListMap := some [false, true] },
  { key := 5, name := "water", propertyName := "on",
    valueListMap := some [false, true], addValueId2 := true },
  { key := 6, name := "switch", propertyName := "open",
    valueListMap := some [false, true, false] },
  { key := 7, name := "motion", propertyName := "motion",
    valueMap := some ["Clear", "Motion"] },
  { key := 18, name := "combustible_gas", propertyName := "combustible_gas",
    valueListMap := some [false, true] }]

/-- `NOTIFICATION_SENSOR2` (lines 183-196). -/
def NOTIFICATION_SENSOR2 : List NotificationSensor := [
  { key := 7, name := "tamper", propertyName := "tamper",
    valueMap := some ["Clear", "Tamper"] }]

/-- `addNotificationSensorProperty` (lines 1667-1760), binding part.  The
hidden `_on` smoke-corroboration binding is only reached when the main alarm
binding was actually created (`alarmProperty` is the — possibly suppressed —
`addProperty` return value; when it is suppressed the source would fault on
the subsequent metadata store, a configuration unreachable with the shipped
quirk catalog). -/
def addNotificationSensorPropertyReqs (info : ZwInfo) (store : ValueStore)
    (valueId : String) (sensor : NotificationSensor) : List PropReq :=
  if info.manufacturerId == AEOTEC_MANUFACTURER_ID &&
     info.productId == AEOTEC_ZW100_PRODUCT_ID && sensor.name == "motion" &&
     (find1 store CC_SENSOR_BINARY 0).isSome then
    [{ name := sensor.propertyName, valueId := find1 store CC_SENSOR_BINARY 0 }] ++
    addConfigLevelReqs store 3 "seconds" ++ addConfigListReqs store 4
  else
    let mainReqs : List PropReq :=
      if sensor.valueListMap.isSome then
        [{ name := sensor.propertyName, valueId := some valueId,
           parseFn := some "parseZwValueListMap" }]
      else if sensor.valueMap.isSome then
        [{ name := sensor.propertyName, valueId := some valueId,
           parseFn := some "parseZwValueMap" }]
      else []
    mainReqs ++
    (if mainReqs ≠ [] ∧ ¬excludedByQuirk info sensor.propertyName then
       match storeLookup store valueId with
       | some zv =>
         if zv.class_id == CC_ALARM && zv.index == 1 then
           match find1 store CC_SENSOR_BINARY 0 with
           | some bs => [{ name := "_on", valueId := some bs }]
           | none => []
         else []
       | none => []
     else [])

/-- `addNotificationSensorProperties` (lines 1615-1665). -/
def addNotificationSensorPropertiesReqs (info : ZwInfo) (store : ValueStore)
    (sensors : List NotificationSensor) : List PropReq :=
  (sensors.map (fun sensor =>
    match find1 store CC_ALARM sensor.key with
    | none => []
    | some valueId =>
      match sensor.valueMap with
      | some vmap =>
        match storeLookup store valueId with
        | none => []
        | some zv =>
          match zv.values with
          | none => []
          | some vals =>
            if vmap.all (fun mapEntry => vals.any (fun v => v.startsWith mapEntry)) then
              addNotificationSensorPropertyReqs info store valueId sensor
            else []
      | none => addNotificationSensorPropertyReqs info store valueId sensor)).flatten

/-- `ZWaveClassifier.initSensorNotification` (lines 1582-1613). -/
def initSensorNotificationReqs (info : ZwInfo) (store : ValueStore) :
    List PropReq :=
  addNotificationSensorPropertiesReqs info store NOTIFICATION_SENSOR ++
  addNotificationSensorPropertiesReqs info store NOTIFICATION_SENSOR2 ++
  (if info.manufacturerId == ECOLINK_MANUFACTURER_ID &&
      info.productId == ECOLINK_FLOOD_FREEZE_PRODUCT_ID then
     match findValueId store CC_SENSOR_BINARY (some 1) (some 1) with
     | some vid => [{ name := "freeze", valueId := some vid }]
     | none => []
   else [])

/-- `addAlarmProperty` (lines 764-789). -/
def addAlarmPropertyReqs (alarmValueId : String) : List PropReq :=
  [{ name := "motion", valueId := some alarmValueId,
     parseFn := some "parseAlarmMotionZwValue" },
   { name := "tamper", valueId := some alarmValueId,
     parseFn := some "parseAlarmTamperZwValue" }]

/-- `addTemperatureProperty` (lines 840-860): the descriptor declares the
unit `degree celsius` and decodes through `parseTemperatureZwValue`. -/
def addTemperaturePropertyReq (temperatureValueId : String) : PropReq :=
  { name := "temperature", valueId := some temperatureValueId,
    unit := some "degree celsius", parseFn := some "parseTemperatureZwValue" }

/-- `addWakeUpProperty` (lines 1762-1797), guarded by the wake-up value
existing; a 0/0 min/max interval suppresses the binding entirely. -/
def addWakeUpPropertyReqs (store : ValueStore) : List PropReq :=
  match find1 store CC_WAKE_UP 0 with
  | none => []
  | some wakeVid =>
    match find1 store CC_WAKE_UP 1, find1 store CC_WAKE_UP 2 with
    | some minVid, some maxVid =>
      let minV := jsNum (((storeLookup store minVid).map (·.value)).getD JsVal.undef)
      let maxV := jsNum (((storeLookup store maxVid).map (·.value)).getD JsVal.undef)
      if minV == 0 && maxV == 0 then []
      else [{ name := "wakeUpInterval", valueId := some wakeVid,
              unit := some "seconds" }]
    | _, _ => [{ name := "wakeUpInterval", valueId := some wakeVid,
                 unit := some "seconds" }]

/-- The cross-cutting sensor bindings attempted after every category branch
(lines 694-722). -/
def crossCuttingReqs (store : ValueStore) : List PropReq :=
  (match find1 store CC_ALARM 10 with
   | some vid => addAlarmPropertyReqs vid
   | none => []) ++
  (match find1 store CC_SENSOR_MULTILEVEL 1 with
   | some vid => [addTemperaturePropertyReq vid]
   | none => []) ++
  (match find1 store CC_SENSOR_MULTILEVEL 40 with
   | some vid => [{ name := "carbonMonoxideLevel", valueId := some vid,
                    unit := some "Ppm" }]
   | none => []) ++
  (match find1 store CC_SENSOR_MULTILEVEL 3 with
   | some vid => [{ name := "luminance", valueId := some vid,
                    unit := some "lux" }]
   | none => []) ++
  (match find1 store CC_SENSOR_MULTILEVEL 5 with
   | some vid => [{ name := "humidity", valueId := some vid,
                    unit := some "percent" }]
   | none => []) ++
  (match find1 store CC_SENSOR_MULTILEVEL 27 with
   | some vid => [{ name := "uvIndex", valueId := some vid }]
   | none => []) ++
  addWakeUpPropertyReqs store

/-! ### The multi-outlet probe loop (lines 609-656) -/

/-- Whether the do/while probe finds a binary-switch or multilevel value at
instance `m`. -/
def switchFoundAt (store : ValueStore) (m : Nat) : Bool :=
  (findValueId store CC_SWITCH_BINARY (some m) (some 0)).isSome ||
  (findValueId store CC_SWITCH_MULTILEVEL (some m) (some 0)).isSome

/-- The do/while loop: advance while something is found; the fuel argument
is only a termination bound. -/
def probeFrom (store : ValueStore) : Nat → Nat → Nat
  | 0, inst => inst
  | fuel + 1, inst =>
    if switchFoundAt store inst then probeFrom store fuel (inst + 1) else inst

/-- The largest instance number stored in the node's value store. -/
def maxInstance (store : ValueStore) : Nat :=
  store.foldr (fun p m => max p.2.inst m) 0

/-- The final value of the loop variable `instance`: the first instance from
2 upward where neither switch value exists. -/
def switchProbeStop (store : ValueStore) : Nat :=
  probeFrom store (maxInstance store + 1) 2

/-- The instances for which suffixed additional-outlet bindings are created
(the `for (instance = 3; instance <= instanceCount; ...)` loop). -/
def additionalOutletInstances (store : ValueStore) : List Nat :=
  List.range' 3 (switchProbeStop store - 1 - 2)

/-- The SWITCH_BINARY / SWITCH_MULTILEVEL branch of `classifyInternal`
(lines 596-658) when it does not divert to `initLight`. -/
def classifySwitchReqs (info : ZwInfo) (store : ValueStore) : List PropReq :=
  let instanceCount := switchProbeStop store - 1
  if instanceCount < 3 then
    initSwitchReqs info store (find1 store CC_SWITCH_BINARY 0)
      (find1 store CC_SWITCH_MULTILEVEL 0) ""
  else
    (if info.manufacturerId == AEOTEC_MANUFACTURER_ID then
       initSwitchReqs info store (findValueId store CC_SWITCH_BINARY (some 2) (some 0))
         (findValueId store CC_SWITCH_MULTILEVEL (some 2) (some 0)) ""
     else
       initSwitchReqs info store (find1 store CC_SWITCH_BINARY 0)
         (find1 store CC_SWITCH_MULTILEVEL 0) "") ++
    ((additionalOutletInstances store).map (fun i =>
       initSwitchReqs info store (findValueId store CC_SWITCH_BINARY (some i) (some 0))
         (findValueId store CC_SWITCH_MULTILEVEL (some i) (some 0))
         (toString (i - 1)))).flatten

/-- `GENERIC_TYPE` constants (src/unnamed/part_004). -/
def GT_SWITCH_BINARY : Nat := 16
def GT_SWITCH_MULTILEVEL : Nat := 17
def GT_SENSOR_BINARY : Nat := 32
def GT_SENSOR_MULTILEVEL : Nat := 33
def GT_SENSOR_NOTIFICATION : Nat := 7
def GT_SENSOR_ALARM : Nat := 161
def GT_WALL_CONTROLLER : Nat := 24
def GT_ENTRY_CONTROL : Nat := 64
def GT_THERMOSTAT : Nat := 8

/-- `ZWaveClassifier.classifyInternal` (lines 422-723) as the list of
binding-creation requests it issues, in order.  The `initLight` path returns
early, skipping the cross-cutting bindings; every other path appends them. -/
def classifyInternalReqs (info : ZwInfo) (store : ValueStore)
    (isLight? : Option Bool) : List PropReq :=
  let g := info.genericType
  if g = GT_SWITCH_BINARY ∨ g = GT_SWITCH_MULTILEVEL then
    match find1 store CC_COLOR 2 with
    | some colorCapVid =>
      if isLight?.getD true then
        initLightReqs info store colorCapVid (find1 store CC_SWITCH_MULTILEVEL 0)
      else classifySwitchReqs info store ++ crossCuttingReqs store
    | none => classifySwitchReqs info store ++ crossCuttingReqs store
  else if g = GT_SENSOR_BINARY then
    initBinarySensorReqs (find1 store CC_SENSOR_BINARY 0) ++
      crossCuttingReqs store
  else if g = GT_SENSOR_MULTILEVEL ∨ g = GT_SENSOR_NOTIFICATION then
    initSensorNotificationReqs info store ++ crossCuttingReqs store
  else if g = GT_SENSOR_ALARM then
    initSensorAlarmReqs info store ++ crossCuttingReqs store
  else if g = GT_WALL_CONTROLLER then
    initCentralSceneReqs info store ++ crossCuttingReqs store
  else if g = GT_ENTRY_CONTROL then
    initEntryControlReqs store (find1 store CC_DOOR_LOCK 0) ++
      crossCuttingReqs store
  else if g = GT_THERMOSTAT then
    initThermostatReqs store ++ crossCuttingReqs store
  else crossCuttingReqs store

/-- `addBatteryProperty` attempted by `classify` for every node (lines
408-416). -/
def batteryReqs (store : ValueStore) : List PropReq :=
  match find1 store CC_BATTERY 0 with
  | some vid => [{ name := "batteryLevel", valueId := some vid,
                   unit := some "percent" }]
  | none => []

/-- All binding-creation requests of one `classify` call. -/
def classifyReqs (info : ZwInfo) (store : ValueStore)
    (isLight? : Option Bool) : List PropReq :=
  classifyInternalReqs info store isLight? ++ batteryReqs store

/-- The quirk loop's effect on `node.isLight` (lines 431-448): every
matching quirk carrying an `isLight` hint overwrites the field. -/
def quirkStepIsLight (info : ZwInfo) (cur : Option Bool) (q : Quirk) :
    Option Bool :=
  if quirkMatches q info then
    match q.isLight with
    | some b => some b
    | none => cur
  else cur

def resolveIsLight (info : ZwInfo) (cur : Option Bool) : Option Bool :=
  QUIRKS.foldl (quirkStepIsLight info) cur

/-- The node state the classifier reads and writes. -/
structure Node where
  zwInfo : ZwInfo
  zwValues : ValueStore
  isLight : Option Bool := none
  classified : Bool := false
  properties : List (String × PropReq) := []

/-- `ZWaveClassifier.classify` (lines 401-420): apply the quirk hints, run
`classifyInternal`'s binding creation, mark the node classified, then try
the battery binding. -/
def classify (node : Node) : Node :=
  let il := resolveIsLight node.zwInfo node.isLight
  { node with
    isLight := il
    classified := true
    properties := applyReqs node.zwInfo node.properties
      (classifyReqs node.zwInfo node.zwValues il) }

/-! ### Marshalling lemmas and claim theorems C4, C5, C6, C10 -/

theorem jsRound_mono {a b : ℚ} (h : a ≤ b) : jsRound a ≤ jsRound b :=
  Int.floor_le_floor (by linarith)

theorem jsRound_ninetynine : jsRound 99 = 99 := by
  unfold jsRound
  norm_num

theorem jsRound_zero : jsRound 0 = 0 := by
  unfold jsRound
  norm_num

/-- Rounding after clamping to `[0,99]` agrees with clamping after
rounding: the source rounds last, the spec sentence reads as rounding first,
and the two coincide. -/
theorem jsRound_clamp_comm (q : ℚ) :
    jsRound (min (max q 0) 99) = min (max (jsRound q) 0) 99 := by
  rcases le_or_lt 0 q with h0 | h0
  · rcases le_or_lt q 99 with h99 | h99
    · rw [max_eq_left h0, min_eq_left h99]
      have hlo : (0 : ℤ) ≤ jsRound q := by
        have := jsRound_mono h0
        rwa [jsRound_zero] at this
      have hhi : jsRound q ≤ 99 := by
        have := jsRound_mono h99
        rwa [jsRound_ninetynine] at this
      rw [max_eq_left hlo, min_eq_left hhi]
    · rw [max_eq_left h0, min_eq_right (le_of_lt h99), jsRound_ninetynine]
      have hhi : (99 : ℤ) ≤ jsRound q := by
        have := jsRound_mono (le_of_lt h99)
        rwa [jsRound_ninetynine] at this
      rw [max_eq_left (le_trans (by norm_num) hhi), min_eq_right hhi]
  · rw [max_eq_right (le_of_lt h0), min_eq_left (by norm_num), jsRound_zero]
    have hle : jsRound q ≤ 0 := by
      have := jsRound_mono (le_of_lt h0)
      rwa [jsRound_zero] at this
    rw [max_eq_right hle, min_eq_left (by norm_num)]

/-- C4: on decode every raw multilevel value of 99 or greater maps to
semantic 100 and negative raw values clamp to 0; on encode a numeric
semantic value is clamped to the declared min/max when present, then rounded
and clamped into `[0,99]` (the rounded-then-clamped form below equals the
source's clamp-then-round), so the written raw value always lies in
`[0,99]`. -/
theorem C4_level_marshalling :
    (∀ raw : ℚ, 99 ≤ raw → (parseLevelZwValue raw).1 = 100) ∧
    (∀ raw : ℚ, raw < 0 → (parseLevelZwValue raw).1 = 0) ∧
    (∀ (min? max? : Option ℚ) (p : ℚ),
      setLevelValue min? max? p =
        min (max (jsRound (clampMinMax min? max? p)) 0) 99 ∧
      0 ≤ setLevelValue min? max? p ∧ setLevelValue min? max? p ≤ 99) := by
  refine ⟨?_, ?_, ?_⟩
  · intro raw h
    simp [parseLevelZwValue, h]
  · intro raw h
    have h99 : ¬(raw ≥ 99) := by linarith
    simp [parseLevelZwValue, h99, max_eq_right (le_of_lt h)]
  · intro min? max? p
    refine ⟨jsRound_clamp_comm _, ?_, ?_⟩
    · unfold setLevelValue
      rw [jsRound_clamp_comm]
      simp
    · unfold setLevelValue
      rw [jsRound_clamp_comm]
      exact min_le_right _ _

theorem C4_level_marshalling_witness :
    (parseLevelZwValue 99).1 = 100 ∧
    (parseLevelZwValue (-5)).1 = 0 ∧
    (0 ≤ setLevelValue (some 10) (some 80) 150 ∧
     setLevelValue (some 10) (some 80) 150 ≤ 99) :=
  ⟨C4_level_marshalling.1 99 (by norm_num),
   C4_level_marshalling.2.1 (-5) (by norm_num),
   (C4_level_marshalling.2.2 (some 10) (some 80) 150).2⟩

/-- C5: an outward `setValue` on a property bound to a read-only raw value
rejects the deferred result, leaves the cached value (and all state)
unchanged, and emits no raw or configuration write. -/
theorem C5_read_only_rejected (store : ValueStore) (encode : JsVal → JsVal)
    (p : PropState) (v : JsVal) (vid : String) (zw : ZwValue)
    (hvid : p.valueId = some vid)
    (hzw : storeLookup store vid = some zw)
    (hro : zw.read_only = true) :
    setValue store encode p v = some (p, [], SetOutcome.rejected) := by
  unfold setValue
  rw [hvid]
  simp [hzw, hro]

theorem C5_read_only_rejected_witness :
    setValue [("2-112-1-5",
        { node_id := 2, class_id := 112, inst := 1, index := 5,
          value := JsVal.num 1, read_only := true })]
      id
      { name := "p", valueId := some "2-112-1-5", value := JsVal.num 1 }
      (JsVal.num 3) =
      some ({ name := "p", valueId := some "2-112-1-5", value := JsVal.num 1 },
            [], SetOutcome.rejected) :=
  C5_read_only_rejected _ _ _ _ "2-112-1-5" _ rfl rfl rfl

/-- Helper: `indexOf?` finds nothing exactly for non-members. -/
theorem indexOf?_eq_none_of_not_mem {l : List String} {a : String}
    (h : a ∉ l) : l.indexOf? a = none := by
  rw [List.indexOf?_eq_none_iff]
  intro x hx
  simp only [beq_iff_eq]
  intro hxa
  exact h (hxa ▸ hx)

/-- C6: an enumerated-list encode whose semantic string is missing from the
raw value's catalog — or whose raw value is absent — falls back to raw index
0 with a log message, and (for a catalog-bearing raw value) never throws. -/
theorem C6_config_list_fallback (zv : ZwValue) (catalog : List String)
    (value : String) (hcat : zv.values = some catalog) :
    (value ∉ catalog →
      setConfigListValue (some zv) value =
        some (0, value ++ " not found - using 0")) ∧
    setConfigListValue none value =
      some (0, "valueId not found - using 0") ∧
    (setConfigListValue (some zv) value).isSome := by
  refine ⟨?_, rfl, ?_⟩
  · intro hmem
    simp only [setConfigListValue, hcat, indexOf?_eq_none_of_not_mem hmem]
  · simp only [setConfigListValue, hcat]
    cases catalog.indexOf? value <;> simp

theorem C6_config_list_fallback_witness :
    setConfigListValue
      (some { node_id := 2, class_id := 112, inst := 1, index := 4,
              value := JsVal.str "A", values := some ["A", "B"],
              vtype := "list" })
      "C" = some (0, "C not found - using 0") :=
  (C6_config_list_fallback _ ["A", "B"] "C" rfl).1 (by decide)

/-- C10: `setValue` on a synthetic property (no bound raw value key) issues
no raw protocol write and no configuration write: it caches the new value,
fires exactly one property-changed notification, and the promise resolves
with the new value through the pending deferred set. -/
theorem C10_synthetic_set (store : ValueStore) (encode : JsVal → JsVal)
    (p : PropState) (v : JsVal) (h : p.valueId = none) :
    setValue store encode p v =
      some ({ p with value := v }, [SetEffect.notify],
            SetOutcome.resolved v) := by
  unfold setValue
  rw [h]

theorem C10_synthetic_set_witness :
    setValue [] id { name := "color", valueId := none, value := JsVal.str "#000000" }
      (JsVal.str "#112233") =
      some ({ name := "color", valueId := none, value := JsVal.str "#112233" },
            [SetEffect.notify], SetOutcome.resolved (JsVal.str "#112233")) :=
  C10_synthetic_set [] id _ _ rfl

/-! ### Key-set lemmas for the property map and claims C1, C2 -/

/-- The key-set effect of one `addProperty` call. -/
def stepKeys (info : ZwInfo) (ks : List String) (r : PropReq) : List String :=
  if excludedByQuirk info r.name then ks
  else if r.name ∈ ks then ks else ks ++ [r.name]

def keysAfter (info : ZwInfo) (ks : List String) (reqs : List PropReq) :
    List String :=
  reqs.foldl (stepKeys info) ks

theorem any_key_eq (props : List (String × PropReq)) (n : String) :
    (props.any (fun p => p.1 == n)) = true ↔ n ∈ propKeys props := by
  rw [List.any_eq_true]
  constructor
  · rintro ⟨p, hp, hbeq⟩
    exact (eq_of_beq hbeq) ▸ List.mem_map_of_mem _ hp
  · intro h
    rcases List.mem_map.mp h with ⟨p, hp, he⟩
    exact ⟨p, hp, by rw [he]; exact beq_self_eq_true n⟩

theorem propKeys_propSet (props : List (String × PropReq)) (n : String)
    (r : PropReq) :
    propKeys (propSet props n r) =
      if n ∈ propKeys props then propKeys props else propKeys props ++ [n] := by
  unfold propSet
  by_cases h : n ∈ propKeys props
  · rw [if_pos ((any_key_eq props n).mpr h), if_pos h]
    simp only [propKeys, List.map_map]
    apply List.map_congr_left
    intro p _
    by_cases hp : p.1 == n
    · simp only [Function.comp_apply, if_pos hp]
      exact (eq_of_beq hp).symm
    · simp only [Function.comp_apply, if_neg hp]
  · rw [if_neg (fun hc => h ((any_key_eq props n).mp hc)), if_neg h]
    simp [propKeys]

theorem propKeys_addProperty (info : ZwInfo)
    (props : List (String × PropReq)) (r : PropReq) :
    propKeys (addProperty info props r) = stepKeys info (propKeys props) r := by
  unfold addProperty stepKeys
  by_cases h : excludedByQuirk info r.name
  · simp [h]
  · simp [h, propKeys_propSet]

theorem propKeys_applyReqs (info : ZwInfo) (reqs : List PropReq)
    (props : List (String × PropReq)) :
    propKeys (applyReqs info props reqs) =
      keysAfter info (propKeys props) reqs := by
  induction reqs generalizing props with
  | nil => rfl
  | cons r t ih =>
    show propKeys (applyReqs info (addProperty info props r) t) =
      keysAfter info (stepKeys info (propKeys props) r) t
    rw [ih, propKeys_addProperty]

theorem mem_stepKeys_of_mem (info : ZwInfo) {x : String} {ks : List String}
    (r : PropReq) (h : x ∈ ks) : x ∈ stepKeys info ks r := by
  unfold stepKeys
  split
  · exact h
  · split
    · exact h
    · exact List.mem_append_left _ h

theorem mem_keysAfter_of_mem (info : ZwInfo) {x : String}
    (reqs : List PropReq) {ks : List String} (h : x ∈ ks) :
    x ∈ keysAfter info ks reqs := by
  induction reqs generalizing ks with
  | nil => exact h
  | cons r t ih => exact ih (mem_stepKeys_of_mem info r h)

theorem name_mem_keysAfter (info : ZwInfo) {r : PropReq}
    (hex : excludedByQuirk info r.name = false) :
    ∀ (reqs : List PropReq) (ks : List String), r ∈ reqs →
      r.name ∈ keysAfter info ks reqs := by
  intro reqs
  induction reqs with
  | nil => intro ks hr; cases hr
  | cons a t ih =>
    intro ks hr
    rcases List.mem_cons.mp hr with h | h
    · subst h
      show r.name ∈ keysAfter info (stepKeys info ks r) t
      apply mem_keysAfter_of_mem
      unfold stepKeys
      rw [hex]
      simp only [Bool.false_eq_true, if_false]
      split
      · assumption
      · exact List.mem_append_right _ (List.mem_singleton_self _)
    · exact ih (stepKeys info ks a) h

theorem keysAfter_eq_of_covered (info : ZwInfo) {reqs : List PropReq}
    {ks : List String}
    (h : ∀ r ∈ reqs, excludedByQuirk info r.name = true ∨ r.name ∈ ks) :
    keysAfter info ks reqs = ks := by
  induction reqs with
  | nil => rfl
  | cons a t ih =>
    have hstep : stepKeys info ks a = ks := by
      unfold stepKeys
      rcases h a (List.mem_cons_self a t) with ha | ha
      · rw [ha]
        simp
      · rw [if_pos ha]
        split <;> rfl
    show keysAfter info (stepKeys info ks a) t = ks
    rw [hstep]
    exact ih (fun r hr => h r (List.mem_cons_of_mem a hr))

theorem keysAfter_idem (info : ZwInfo) (reqs : List PropReq)
    (ks : List String) :
    keysAfter info (keysAfter info ks reqs) reqs =
      keysAfter info ks reqs := by
  apply keysAfter_eq_of_covered
  intro r hr
  by_cases hex : excludedByQuirk info r.name
  · exact Or.inl hex
  · exact Or.inr (name_mem_keysAfter info (by simpa using hex) reqs ks hr)

theorem keysAfter_not_mem (info : ZwInfo) {name : String}
    (hexc : excludedByQuirk info name = true) (reqs : List PropReq)
    {ks : List String} (h : name ∉ ks) : name ∉ keysAfter info ks reqs := by
  induction reqs generalizing ks with
  | nil => exact h
  | cons r t ih =>
    apply ih
    unfold stepKeys
    split
    · exact h
    next hrex =>
      split
      · exact h
      · intro hmem
        rcases List.mem_append.mp hmem with h1 | h2
        · exact h h1
        · have hn : name = r.name := List.mem_singleton.mp h2
          rw [hn] at hexc
          exact hrex hexc

/-- C1: if a quirk in the static catalog matches the node's hardware
identity and lists `name` among its `excludeProperties`, then no sequence of
`addProperty` calls — in particular the one `classify` performs — ever
creates a binding named `name` on that node. -/
theorem C1_quirk_suppression (node : Node) (q : Quirk) (name : String)
    (excl : List String) (hq : q ∈ QUIRKS)
    (hm : quirkMatches q node.zwInfo = true)
    (hex : q.excludeProperties = some excl) (hname : name ∈ excl)
    (habs : name ∉ propKeys node.properties) :
    (∀ reqs props, name ∉ propKeys props →
       name ∉ propKeys (applyReqs node.zwInfo props reqs)) ∧
    name ∉ propKeys (classify node).properties := by
  have hexc : excludedByQuirk node.zwInfo name = true := by
    unfold excludedByQuirk
    rw [List.any_eq_true]
    refine ⟨q, hq, ?_⟩
    rw [hex]
    simp only [Bool.and_eq_true]
    exact ⟨hm, by simpa using hname⟩
  constructor
  · intro reqs props hp
    rw [propKeys_applyReqs]
    exact keysAfter_not_mem _ hexc reqs hp
  · show name ∉ propKeys (applyReqs node.zwInfo node.properties
      (classifyReqs node.zwInfo node.zwValues
        (resolveIsLight node.zwInfo node.isLight)))
    rw [propKeys_applyReqs]
    exact keysAfter_not_mem _ hexc _ habs

/-- An Aeotec ZW096 (Smart Switch 6) node with both binary-switch and
multilevel raw level values present and no properties yet. -/
def zw096Node : Node :=
  { zwInfo := { nodeId := 3, manufacturerId := "0x0086",
                productId := "0x0060", manufacturer := "Aeotec",
                genericType := 16 },
    zwValues := [
      ("3-37-1-0", { node_id := 3, class_id := 37, inst := 1, index := 0,
                     value := JsVal.bool false }),
      ("3-38-1-0", { node_id := 3, class_id := 38, inst := 1, index := 0,
                     value := JsVal.num 0 })] }

theorem C1_quirk_suppression_witness :
    "level" ∉ propKeys (classify zw096Node).properties :=
  (C1_quirk_suppression zw096Node
    { zwInfo := { manufacturerId := some AEOTEC_MANUFACTURER_ID,
                  productId := some AEOTEC_ZW096_PRODUCT_ID },
      excludeProperties := some ["level"] }
    "level" ["level"] (by decide) (by decide) rfl (by decide) (by decide)).2

/-- The quirk loop's `isLight` folding either leaves every start value
unchanged or forces one fixed value. -/
theorem foldl_isLight_idem (info : ZwInfo) (qs : List Quirk) :
    (∀ x, qs.foldl (quirkStepIsLight info) x = x) ∨
    (∃ b, ∀ x, qs.foldl (quirkStepIsLight info) x = some b) := by
  induction qs with
  | nil => exact Or.inl (fun _ => rfl)
  | cons q t ih =>
    by_cases hm : quirkMatches q info
    · cases hql : q.isLight with
      | some b =>
        have hstep : ∀ x, quirkStepIsLight info x q = some b := by
          intro x
          unfold quirkStepIsLight
          rw [if_pos hm, hql]
        rcases ih with hid | ⟨c, hc⟩
        · refine Or.inr ⟨b, fun x => ?_⟩
          rw [List.foldl_cons, hstep, hid]
        · exact Or.inr ⟨c, fun x => by rw [List.foldl_cons, hc]⟩
      | none =>
        have hstep : ∀ x, quirkStepIsLight info x q = x := by
          intro x
          unfold quirkStepIsLight
          rw [if_pos hm, hql]
        rcases ih with hid | ⟨c, hc⟩
        · exact Or.inl (fun x => by rw [List.foldl_cons, hstep, hid])
        · exact Or.inr ⟨c, fun x => by rw [List.foldl_cons, hstep, hc]⟩
    · have hstep : ∀ x, quirkStepIsLight info x q = x := by
        intro x
        unfold quirkStepIsLight
        rw [if_neg hm]
      rcases ih with hid | ⟨c, hc⟩
      · exact Or.inl (fun x => by rw [List.foldl_cons, hstep, hid])
      · exact Or.inr ⟨c, fun x => by rw [List.foldl_cons, hstep, hc]⟩

theorem resolveIsLight_idem (info : ZwInfo) (x : Option Bool) :
    resolveIsLight info (resolveIsLight info x) = resolveIsLight info x := by
  unfold resolveIsLight
  rcases foldl_isLight_idem info QUIRKS with hid | ⟨b, hb⟩
  · rw [hid, hid]
  · rw [hb, hb]

/-- C2: re-running `classify` on an already classified node leaves the
number of property bindings unchanged — the second run issues the same
binding requests (they are computed from the hardware identity, the raw
value store and the quirk catalog, none of which classification mutates)
and every one lands on an existing key of the keyed property map. -/
theorem C2_reclassify_count (node : Node) :
    ((classify (classify node)).properties).length =
      ((classify node).properties).length := by
  have hcc : (classify (classify node)).properties =
      applyReqs node.zwInfo
        (applyReqs node.zwInfo node.properties
          (classifyReqs node.zwInfo node.zwValues
            (resolveIsLight node.zwInfo node.isLight)))
        (classifyReqs node.zwInfo node.zwValues
          (resolveIsLight node.zwInfo node.isLight)) := by
    show applyReqs node.zwInfo
        (applyReqs node.zwInfo node.properties
          (classifyReqs node.zwInfo node.zwValues
            (resolveIsLight node.zwInfo node.isLight)))
        (classifyReqs node.zwInfo node.zwValues
          (resolveIsLight node.zwInfo
            (resolveIsLight node.zwInfo node.isLight))) = _
    rw [resolveIsLight_idem]
  have hc : (classify node).properties =
      applyReqs node.zwInfo node.properties
        (classifyReqs node.zwInfo node.zwValues
          (resolveIsLight node.zwInfo node.isLight)) := rfl
  have hkeys : propKeys (classify (classify node)).properties =
      propKeys (classify node).properties := by
    rw [hcc, hc, propKeys_applyReqs, propKeys_applyReqs, keysAfter_idem]
  have hlen := congrArg List.length hkeys
  simpa [propKeys] using hlen

/-! ### Claim C7: the multi-outlet probe loop -/

theorem inst_le_maxInstance {store : ValueStore} {p : String × ZwValue}
    (h : p ∈ store) : p.2.inst ≤ maxInstance store := by
  induction store with
  | nil => cases h
  | cons a t ih =>
    rcases List.mem_cons.mp h with h | h
    · rw [h]
      exact le_max_left _ _
    · exact le_trans (ih h) (le_max_right _ _)

theorem switchFoundAt_le_maxInstance {store : ValueStore} {m : Nat}
    (h : switchFoundAt store m = true) : m ≤ maxInstance store := by
  unfold switchFoundAt at h
  rw [Bool.or_eq_true] at h
  have key : ∀ cc, (findValueId store cc (some m) (some 0)).isSome = true →
      m ≤ maxInstance store := by
    intro cc hf
    unfold findValueId at hf
    obtain ⟨s, hs⟩ := Option.isSome_iff_exists.mp hf
    obtain ⟨p, hp, -⟩ := Option.map_eq_some'.mp hs
    have hmem := List.mem_of_find?_eq_some hp
    have hpred := List.find?_some hp
    simp only [decide_eq_true_eq] at hpred
    have hinst : p.2.inst = m := hpred.2.1 m rfl
    rw [← hinst]
    exact inst_le_maxInstance hmem
  rcases h with h | h
  · exact key _ h
  · exact key _ h

theorem probeFrom_spec (store : ValueStore) :
    ∀ fuel inst, maxInstance store < inst + fuel →
      switchFoundAt store (probeFrom store fuel inst) = false ∧
      inst ≤ probeFrom store fuel inst ∧
      ∀ m, inst ≤ m → m < probeFrom store fuel inst →
        switchFoundAt store m = true := by
  intro fuel
  induction fuel with
  | zero =>
    intro inst h
    have hp0 : probeFrom store 0 inst = inst := rfl
    rw [hp0]
    refine ⟨?_, le_refl _, ?_⟩
    · cases hf : switchFoundAt store inst with
      | false => rfl
      | true =>
        have := switchFoundAt_le_maxInstance hf
        omega
    · intro m h1 h2
      omega
  | succ fuel ih =>
    intro inst h
    have hps : probeFrom store (fuel + 1) inst =
        if switchFoundAt store inst then probeFrom store fuel (inst + 1)
        else inst := rfl
    by_cases hf : switchFoundAt store inst
    · rw [hps, if_pos hf]
      have hrec := ih (inst + 1) (by omega)
      refine ⟨hrec.1, by omega, ?_⟩
      intro m h1 h2
      rcases Nat.eq_or_lt_of_le h1 with he | hlt
      · exact he ▸ hf
      · exact hrec.2.2 m hlt h2
    · rw [hps, if_neg hf]
      exact ⟨by simpa using hf, le_refl _, fun m h1 h2 => by omega⟩

/-- C7: the probe loop stops exactly at the first instance (from 2 upward)
where neither a binary-switch nor a multilevel value exists, it is bounded
by the largest instance the finite value store holds, and the suffixed
additional-outlet bindings are built only for instances 3 and beyond —
never for instance 2. -/
theorem C7_outlet_probe (store : ValueStore) :
    (2 ≤ switchProbeStop store ∧
     switchProbeStop store ≤ maxInstance store + 2 ∧
     switchFoundAt store (switchProbeStop store) = false ∧
     (∀ m, 2 ≤ m → m < switchProbeStop store →
        switchFoundAt store m = true)) ∧
    (2 ∉ additionalOutletInstances store ∧
     ∀ i ∈ additionalOutletInstances store,
       3 ≤ i ∧ i ≤ switchProbeStop store - 1) := by
  have hspec := probeFrom_spec store (maxInstance store + 1) 2 (by omega)
  rw [show probeFrom store (maxInstance store + 1) 2 = switchProbeStop store
        from rfl] at hspec
  have hstop2 : 2 ≤ switchProbeStop store := hspec.2.1
  have hbound : switchProbeStop store ≤ maxInstance store + 2 := by
    rcases Nat.eq_or_lt_of_le hstop2 with he | hlt
    · omega
    · have hfound := hspec.2.2 (switchProbeStop store - 1) (by omega) (by omega)
      have := switchFoundAt_le_maxInstance hfound
      omega
  have hmem : ∀ i ∈ additionalOutletInstances store,
      3 ≤ i ∧ i ≤ switchProbeStop store - 1 := by
    intro i hi
    unfold additionalOutletInstances at hi
    rw [List.mem_range'] at hi
    omega
  refine ⟨⟨hstop2, hbound, hspec.1, hspec.2.2⟩, ?_, hmem⟩
  intro h2
  have := hmem 2 h2
  omega

/-- A store with switch values on instances 1, 2 and 3 (and nothing at 4):
the probe stops at 4 and exactly one suffixed outlet (instance 3) is
added. -/
def threeOutletStore : ValueStore := [
  ("9-37-1-0", { node_id := 9, class_id := 37, inst := 1, index := 0,
                 value := JsVal.bool false }),
  ("9-37-2-0", { node_id := 9, class_id := 37, inst := 2, index := 0,
                 value := JsVal.bool false }),
  ("9-37-3-0", { node_id := 9, class_id := 37, inst := 3, index := 0,
                 value := JsVal.bool false })]

theorem C7_outlet_probe_witness :
    switchFoundAt threeOutletStore 2 = true ∧
    2 ∉ additionalOutletInstances threeOutletStore :=
  ⟨(C7_outlet_probe threeOutletStore).1.2.2.2 2 (by norm_num) (by decide),
   (C7_outlet_probe threeOutletStore).2.1⟩

/-- C8: a temperature raw value with declared unit `F` decodes to
`(raw - 32) / 1.8` Celsius, any other unit decodes unchanged, and the
classifier's temperature binding declares the unit `degree celsius` and
decodes through `parseTemperatureZwValue`. -/
theorem C8_temperature_decode (store : ValueStore) (vid : String)
    (zv : ZwValue) (raw : ℚ) (h : storeLookup store vid = some zv) :
    (zv.units = "F" →
      parseTemperatureZwValue store vid raw = some ((raw - 32) / (9/5))) ∧
    (zv.units ≠ "F" → parseTemperatureZwValue store vid raw = some raw) ∧
    (addTemperaturePropertyReq vid).unit = some "degree celsius" ∧
    (addTemperaturePropertyReq vid).parseFn = some "parseTemperatureZwValue" := by
  refine ⟨?_, ?_, rfl, rfl⟩ <;> intro hu <;>
    simp [parseTemperatureZwValue, h, hu]

def fahrenheitStore : ValueStore := [
  ("5-49-1-1", { node_id := 5, class_id := 49, inst := 1, index := 1,
                 value := JsVal.num 72, units := "F", read_only := true })]

theorem C8_temperature_decode_witness :
    parseTemperatureZwValue fahrenheitStore "5-49-1-1" 72 = some (200/9) := by
  have h := (C8_temperature_decode fahrenheitStore "5-49-1-1"
    { node_id := 5, class_id := 49, inst := 1, index := 1,
      value := JsVal.num 72, units := "F", read_only := true } 72 rfl).1 rfl
  rw [h]
  norm_num

/-! ### Claim C3: the lock state machine

`ZWaveNode.performAction` (src/zwave-node.js lines 353-403), the 10-second
timeout callback it arms (lines 392-400), and the `doorLockProperty.updated`
reaction hook installed by `initEntryControl`
(src/zwave-classifier.js lines 2031-2045).  The call
`this.doorLockProperty.setValue(bool)` runs the `setValue` raw-write path
modelled above; here it is recorded as caching the boolean and appending a
raw write. -/

/-- The lock-related node state.  `finishedActions` counts `action.finish()`
calls (each resolves the corresponding pending action). -/
structure LockNode where
  stateValue : String
  rawLocked : JsVal
  pendingAction : Bool
  timeoutActive : Bool
  rawWrites : List Bool
  finishedActions : Nat
deriving DecidableEq, Repr

/-- The promise returned by `performAction`. -/
inductive ActionResult where
  | rejectedBusy
  | finishedNoOp
  | started
  | rejectedUnknown
deriving DecidableEq, Repr

/-- `ZWaveNode.performAction`. -/
def performAction (s : LockNode) (name : String) : LockNode × ActionResult :=
  if s.pendingAction then (s, ActionResult.rejectedBusy)
  else if name = "lock" then
    if s.stateValue = "locked" then
      ({ s with finishedActions := s.finishedActions + 1 },
       ActionResult.finishedNoOp)
    else
      ({ s with pendingAction := true,
                rawLocked := JsVal.bool true,
                rawWrites := s.rawWrites ++ [true],
                stateValue := "unknown",
                timeoutActive := true }, ActionResult.started)
  else if name = "unlock" then
    if s.stateValue = "unlocked" then
      ({ s with finishedActions := s.finishedActions + 1 },
       ActionResult.finishedNoOp)
    else
      ({ s with pendingAction := true,
                rawLocked := JsVal.bool false,
                rawWrites := s.rawWrites ++ [false],
                stateValue := "unknown",
                timeoutActive := true }, ActionResult.started)
  else
    ({ s with finishedActions := s.finishedActions + 1 },
     ActionResult.rejectedUnknown)

/-- The timeout callback: no status update arrived, assume jammed, resolve
the pending action.  Firing consumes the timer. -/
def doorLockTimeoutFire (s : LockNode) : LockNode :=
  let s1 := { s with stateValue := "jammed", timeoutActive := false }
  if s1.pendingAction then
    { s1 with pendingAction := false,
              finishedActions := s1.finishedActions + 1 }
  else s1

/-- A raw door-lock value update: `zwValueChanged` caches the boolean, then
the `doorLockProperty.updated` hook derives the visible state, clears the
timeout and resolves the pending action. -/
def doorLockRawUpdate (s : LockNode) (b : Bool) : LockNode :=
  let s1 := { s with rawLocked := JsVal.bool b,
                     stateValue := if b then "locked" else "unlocked" }
  let s2 := if s1.timeoutActive then { s1 with timeoutActive := false }
            else s1
  if s2.pendingAction then
    { s2 with pendingAction := false,
              finishedActions := s2.finishedActions + 1 }
  else s2

/-- C3: `performAction('lock')` rejects while a lock/unlock action is
pending; finishes immediately with no raw write when already `locked`;
otherwise writes the raw boolean, shows `unknown` and arms the timeout.
The timeout, absent a confirming update, shows `jammed` and resolves the
pending action; a confirming raw update instead clears the timeout,
derives the confirmed state and resolves the action without writing. -/
theorem C3_lock_action (s : LockNode) :
    (s.pendingAction = true →
       performAction s "lock" = (s, ActionResult.rejectedBusy)) ∧
    (s.pendingAction = false → s.stateValue = "locked" →
       performAction s "lock" =
         ({ s with finishedActions := s.finishedActions + 1 },
          ActionResult.finishedNoOp) ∧
       (performAction s "lock").1.rawWrites = s.rawWrites) ∧
    (s.pendingAction = false → s.stateValue ≠ "locked" →
       (performAction s "lock").2 = ActionResult.started ∧
       (performAction s "lock").1.rawWrites = s.rawWrites ++ [true] ∧
       (performAction s "lock").1.stateValue = "unknown" ∧
       (performAction s "lock").1.timeoutActive = true ∧
       (performAction s "lock").1.pendingAction = true) ∧
    (s.pendingAction = true →
       (doorLockTimeoutFire s).stateValue = "jammed" ∧
       (doorLockTimeoutFire s).pendingAction = false ∧
       (doorLockTimeoutFire s).finishedActions = s.finishedActions + 1 ∧
       (doorLockTimeoutFire s).rawWrites = s.rawWrites) ∧
    (s.timeoutActive = true → s.pendingAction = true →
       (doorLockRawUpdate s true).timeoutActive = false ∧
       (doorLockRawUpdate s true).pendingAction = false ∧
       (doorLockRawUpdate s true).finishedActions = s.finishedActions + 1 ∧
       (doorLockRawUpdate s true).stateValue = "locked" ∧
       (doorLockRawUpdate s true).rawWrites = s.rawWrites) := by
  refine ⟨?_, ?_, ?_, ?_, ?_⟩
  · intro hp
    simp [performAction, hp]
  · intro hp hst
    constructor
    · simp [performAction, hp, hst]
    · simp [performAction, hp, hst]
  · intro hp hst
    refine ⟨?_, ?_, ?_, ?_, ?_⟩ <;> simp [performAction, hp, hst]
  · intro hp
    refine ⟨?_, ?_, ?_, ?_⟩ <;> simp [doorLockTimeoutFire, hp]
  · intro ht hp
    refine ⟨?_, ?_, ?_, ?_, ?_⟩ <;> simp [doorLockRawUpdate, ht, hp]

/-- An unlocked, idle lock node. -/
def unlockedLock : LockNode :=
  { stateValue := "unlocked", rawLocked := JsVal.bool false,
    pendingAction := false, timeoutActive := false, rawWrites := [],
    finishedActions := 0 }

theorem C3_lock_action_witness :
    (performAction unlockedLock "lock").2 = ActionResult.started ∧
    (performAction unlockedLock "lock").1.rawWrites = [true] ∧
    (performAction unlockedLock "lock").1.stateValue = "unknown" ∧
    (doorLockTimeoutFire (performAction unlockedLock "lock").1).stateValue =
      "jammed" := by
  have h3 := (C3_lock_action unlockedLock).2.2.1 rfl (by decide)
  have h4 := (C3_lock_action (performAction unlockedLock "lock").1).2.2.2.1
    h3.2.2.2.2
  exact ⟨h3.1, h3.2.1, h3.2.2.1, h4.1⟩

/-! ### Claim C9: the light color composition re-entrancy guard

`initLight` (src/zwave-classifier.js lines 1318-1478) installs `updated`
hooks on the hidden packed `_colorHex` property and on the `color`,
`warmLevel` and `coolLevel` channel properties, with
`node.updatingColorHex` guarding the channel hooks and the per-property
`updating` flag (set by `notifyPropertyChanged`, src/zwave-node.js lines
310-316) guarding each hook against direct re-entry.  The state below holds
the four cached values, the guard flags, the channel-existence capability
bits, and the raw writes of the packed value (`_colorHex.setValue` follows
the `setValue` raw-write path above; its raw value is never read-only, and
it carries `fireAndForget` so a write is always followed by a notify). -/

/-- JS `s.substr(start, len)` for in-range arguments. -/
def jsSubstr (s : String) (start len : Nat) : String := (s.drop start).take len

/-- Lower-case hex digit for d < 16 (`Number.prototype.toString(16)`). -/
def hexDigitChar (d : Nat) : Char :=
  if d < 10 then Char.ofNat (48 + d) else Char.ofNat (87 + d)

/-- `('00' + n.toString(16)).substr(-2)` for n ≤ 255: the two-digit
lower-case hex rendering. -/
def natToHex2 (n : Nat) : String :=
  ⟨[hexDigitChar (n / 16), hexDigitChar (n % 16)]⟩

/-- `parseInt(s, 16)` for a well-formed hex string (malformed digits read as
0 here; the source would produce NaN, which no proved path reaches). -/
def hexDigitVal (c : Char) : Nat :=
  if 48 ≤ c.toNat ∧ c.toNat ≤ 57 then c.toNat - 48
  else if 97 ≤ c.toNat ∧ c.toNat ≤ 102 then c.toNat - 87
  else if 65 ≤ c.toNat ∧ c.toNat ≤ 70 then c.toNat - 55
  else 0

def parseHex2 (s : String) : ℚ :=
  ((s.data.foldl (fun acc c => acc * 16 + hexDigitVal c) 0 : Nat) : ℚ)

/-- `levelToHex` (src/zwave-classifier.js lines 391-398): percentage to a
two-digit hex byte plus the re-quantized level. -/
def levelToHex (level : ℚ) : String × ℚ :=
  let hexValue := (jsRound (min 255 (max 0 (level * 255 / 100)))).toNat
  (natToHex2 hexValue, ((jsRound ((hexValue : ℚ) * 100 / 255) : ℤ) : ℚ))

/-- The color-related state of a light node. -/
structure ColorNode where
  hexVal : String
  rgbVal : String
  warmVal : ℚ
  coolVal : ℚ
  updatingColorHex : Bool
  hexUpdating : Bool
  rgbUpdating : Bool
  warmUpdating : Bool
  coolUpdating : Bool
  hexWrites : List String
  hasRgb : Bool
  hasWarm : Bool
  hasCool : Bool
  hexValueId : Bool
deriving DecidableEq, Repr

/-- The entry points of the mutually recursive color machinery: property
`setValue` calls, `notifyPropertyChanged` hook dispatch, and the four
`updated` hook bodies. -/
inductive ColorEvent where
  | hexSet (v : String)
  | rgbSet (v : String)
  | warmSet (v : ℚ)
  | coolSet (v : ℚ)
  | notifyHex
  | notifyRgb
  | notifyWarm
  | notifyCool
  | hexUpdated
  | hexUpdRgb
  | hexUpdWarm
  | hexUpdCool
  | rgbUpdated
  | warmUpdated
  | coolUpdated
deriving DecidableEq, Repr

/-- One synchronous cascade step; `fuel` only bounds the recursion (the
guard flags cut every cycle well inside the fuel the entry points pass). -/
def colorRun (fuel : Nat) (ev : ColorEvent) (s : ColorNode) : ColorNode :=
  match fuel with
  | 0 => s
  | fuel + 1 =>
    match ev with
    | ColorEvent.hexSet v =>
      -- ZWaveProperty.setValue on _colorHex: cache, raw write when a raw
      -- value is bound, fireAndForget notify.
      colorRun fuel ColorEvent.notifyHex
        { s with hexVal := v,
                 hexWrites := s.hexWrites ++
                   (if s.hexValueId then [v] else []) }
    | ColorEvent.rgbSet v =>
      colorRun fuel ColorEvent.notifyRgb { s with rgbVal := v }
    | ColorEvent.warmSet v =>
      colorRun fuel ColorEvent.notifyWarm { s with warmVal := v }
    | ColorEvent.coolSet v =>
      colorRun fuel ColorEvent.notifyCool { s with coolVal := v }
    | ColorEvent.notifyHex =>
      if s.hexUpdating then s
      else
        { colorRun fuel ColorEvent.hexUpdated { s with hexUpdating := true }
          with hexUpdating := false }
    | ColorEvent.notifyRgb =>
      if !s.hasRgb then s
      else if s.rgbUpdating then s
      else
        { colorRun fuel ColorEvent.rgbUpdated { s with rgbUpdating := true }
          with rgbUpdating := false }
    | ColorEvent.notifyWarm =>
      if !s.hasWarm then s
      else if s.warmUpdating then s
      else
        { colorRun fuel ColorEvent.warmUpdated { s with warmUpdating := true }
          with warmUpdating := false }
    | ColorEvent.notifyCool =>
      if !s.hasCool then s
      else if s.coolUpdating then s
      else
        { colorRun fuel ColorEvent.coolUpdated { s with coolUpdating := true }
          with coolUpdating := false }
    | ColorEvent.hexUpdated =>
      -- The hook body is its three sequential statements, each reading the
      -- state the previous one left behind.
      colorRun fuel ColorEvent.hexUpdCool
        (colorRun fuel ColorEvent.hexUpdWarm
          (colorRun fuel ColorEvent.hexUpdRgb s))
    | ColorEvent.hexUpdRgb =>
      if s.hasRgb then
        let newValue := jsSubstr s.hexVal 0 7
        if s.rgbVal ≠ newValue then
          colorRun fuel (ColorEvent.rgbSet newValue) s
        else s
      else s
    | ColorEvent.hexUpdWarm =>
      if s.hasWarm then
        let newValue := parseHex2 (jsSubstr s.hexVal 7 2) * 100 / 255
        if s.warmVal ≠ newValue then
          colorRun fuel (ColorEvent.warmSet newValue) s
        else s
      else s
    | ColorEvent.hexUpdCool =>
      if s.hasCool then
        let newValue := parseHex2 (jsSubstr s.hexVal 9 2) * 100 / 255
        if s.coolVal ≠ newValue then
          colorRun fuel (ColorEvent.coolSet newValue) s
        else s
      else s
    | ColorEvent.rgbUpdated =>
      if s.updatingColorHex then s
      else
        let s1 := { s with updatingColorHex := true }
        let zwData := s1.rgbVal ++ "0000"
        let s2 := if s1.hexVal ≠ zwData then
            colorRun fuel (ColorEvent.hexSet zwData) s1
          else s1
        { s2 with updatingColorHex := false }
    | ColorEvent.warmUpdated =>
      if s.updatingColorHex then s
      else
        let s1 := { s with updatingColorHex := true }
        let p := levelToHex s1.warmVal
        let s2 := { s1 with warmVal := p.2 }
        let zwData := "#000000" ++ p.1 ++ "00"
        let s3 := if s2.hexVal ≠ zwData then
            colorRun fuel (ColorEvent.hexSet zwData) s2
          else s2
        { s3 with updatingColorHex := false }
    | ColorEvent.coolUpdated =>
      if s.updatingColorHex then s
      else
        let s1 := { s with updatingColorHex := true }
        let p := levelToHex s1.coolVal
        let s2 := { s1 with coolVal := p.2 }
        let zwData := "#00000000" ++ p.1
        let s3 := if s2.hexVal ≠ zwData then
            colorRun fuel (ColorEvent.hexSet zwData) s2
          else s2
        { s3 with updatingColorHex := false }

/-- Fuel strictly larger than the deepest possible cascade. -/
def colorCascadeFuel : Nat := 16

/-- External set of the `color` channel (synthetic property: cache and
notify). -/
def setRgbExternal (s : ColorNode) (v : String) : ColorNode :=
  colorRun colorCascadeFuel (ColorEvent.rgbSet v) s

def setWarmExternal (s : ColorNode) (v : ℚ) : ColorNode :=
  colorRun colorCascadeFuel (ColorEvent.warmSet v) s

def setCoolExternal (s : ColorNode) (v : ℚ) : ColorNode :=
  colorRun colorCascadeFuel (ColorEvent.coolSet v) s

/-- A raw value-changed notification for the packed color value:
`parseRRGGBBWWCWColorValue` returns the previously cached value (the
device's reply is deliberately ignored), so the cached value is re-stored
unchanged and the hook is notified. -/
def rawHexNotification (s : ColorNode) : ColorNode :=
  colorRun colorCascadeFuel ColorEvent.notifyHex s

/-- The steady state after classification: each existing channel holds the
decode of the packed value and no guard flag is set. -/
def ColorSynced (s : ColorNode) : Prop :=
  (s.hasRgb = true → s.rgbVal = jsSubstr s.hexVal 0 7) ∧
  (s.hasWarm = true →
     s.warmVal = parseHex2 (jsSubstr s.hexVal 7 2) * 100 / 255) ∧
  (s.hasCool = true →
     s.coolVal = parseHex2 (jsSubstr s.hexVal 9 2) * 100 / 255) ∧
  s.updatingColorHex = false ∧ s.hexUpdating = false ∧
  s.rgbUpdating = false ∧ s.warmUpdating = false ∧ s.coolUpdating = false

/-! Guard lemmas: with `node.updatingColorHex` set, the channel hooks (and
everything they could trigger) are inert. -/

theorem colorRun_guard_rgbUpdated (fuel : Nat) (s : ColorNode)
    (h : s.updatingColorHex = true) :
    colorRun fuel ColorEvent.rgbUpdated s = s := by
  cases fuel with
  | zero => rfl
  | succ fuel => simp [colorRun, h]

theorem colorRun_guard_warmUpdated (fuel : Nat) (s : ColorNode)
    (h : s.updatingColorHex = true) :
    colorRun fuel ColorEvent.warmUpdated s = s := by
  cases fuel with
  | zero => rfl
  | succ fuel => simp [colorRun, h]

theorem colorRun_guard_coolUpdated (fuel : Nat) (s : ColorNode)
    (h : s.updatingColorHex = true) :
    colorRun fuel ColorEvent.coolUpdated s = s := by
  cases fuel with
  | zero => rfl
  | succ fuel => simp [colorRun, h]

theorem colorRun_guard_notifyRgb (fuel : Nat) (s : ColorNode)
    (h : s.updatingColorHex = true) :
    colorRun fuel ColorEvent.notifyRgb s = s := by
  obtain ⟨hxv, rbv, wmv, clv, uch, hxu, rbu, wmu, clu, wr, hasR, hasW, hasC,
    hvid⟩ := s
  have huch : uch = true := h
  subst huch
  cases fuel with
  | zero => rfl
  | succ fuel =>
    cases hasR with
    | false => rfl
    | true =>
      cases rbu with
      | true => rfl
      | false =>
        show { colorRun fuel ColorEvent.rgbUpdated
                 ⟨hxv, rbv, wmv, clv, true, hxu, true, wmu, clu, wr, true,
                  hasW, hasC, hvid⟩ with rgbUpdating := false } = _
        rw [colorRun_guard_rgbUpdated fuel _ rfl]

theorem colorRun_guard_notifyWarm (fuel : Nat) (s : ColorNode)
    (h : s.updatingColorHex = true) :
    colorRun fuel ColorEvent.notifyWarm s = s := by
  obtain ⟨hxv, rbv, wmv, clv, uch, hxu, rbu, wmu, clu, wr, hasR, hasW, hasC,
    hvid⟩ := s
  have huch : uch = true := h
  subst huch
  cases fuel with
  | zero => rfl
  | succ fuel =>
    cases hasW with
    | false => rfl
    | true =>
      cases wmu with
      | true => rfl
      | false =>
        show { colorRun fuel ColorEvent.warmUpdated
                 ⟨hxv, rbv, wmv, clv, true, hxu, rbu, true, clu, wr, hasR,
                  true, hasC, hvid⟩ with warmUpdating := false } = _
        rw [colorRun_guard_warmUpdated fuel _ rfl]

theorem colorRun_guard_notifyCool (fuel : Nat) (s : ColorNode)
    (h : s.updatingColorHex = true) :
    colorRun fuel ColorEvent.notifyCool s = s := by
  obtain ⟨hxv, rbv, wmv, clv, uch, hxu, rbu, wmu, clu, wr, hasR, hasW, hasC,
    hvid⟩ := s
  have huch : uch = true := h
  subst huch
  cases fuel with
  | zero => rfl
  | succ fuel =>
    cases hasC with
    | false => rfl
    | true =>
      cases clu with
      | true => rfl
      | false =>
        show { colorRun fuel ColorEvent.coolUpdated
                 ⟨hxv, rbv, wmv, clv, true, hxu, rbu, wmu, true, wr, hasR,
                  hasW, true, hvid⟩ with coolUpdating := false } = _
        rw [colorRun_guard_coolUpdated fuel _ rfl]

theorem colorRun_guard_rgbSet (fuel : Nat) (s : ColorNode) (v : String)
    (h : s.updatingColorHex = true) :
    colorRun (fuel + 1) (ColorEvent.rgbSet v) s = { s with rgbVal := v } := by
  show colorRun fuel ColorEvent.notifyRgb { s with rgbVal := v } = _
  exact colorRun_guard_notifyRgb fuel _ h

theorem colorRun_guard_warmSet (fuel : Nat) (s : ColorNode) (v : ℚ)
    (h : s.updatingColorHex = true) :
    colorRun (fuel + 1) (ColorEvent.warmSet v) s = { s with warmVal := v } := by
  show colorRun fuel ColorEvent.notifyWarm { s with warmVal := v } = _
  exact colorRun_guard_notifyWarm fuel _ h

theorem colorRun_guard_coolSet (fuel : Nat) (s : ColorNode) (v : ℚ)
    (h : s.updatingColorHex = true) :
    colorRun (fuel + 1) (ColorEvent.coolSet v) s = { s with coolVal := v } := by
  show colorRun fuel ColorEvent.notifyCool { s with coolVal := v } = _
  exact colorRun_guard_notifyCool fuel _ h

/-! Unfolding equations for `colorRun` (definitional). -/

theorem colorRun_hexSet_succ (fuel : Nat) (s : ColorNode) (v : String) :
    colorRun (fuel + 1) (ColorEvent.hexSet v) s =
      colorRun fuel ColorEvent.notifyHex
        { s with hexVal := v,
                 hexWrites := s.hexWrites ++
                   (if s.hexValueId then [v] else []) } := rfl

theorem colorRun_rgbSet_succ (fuel : Nat) (s : ColorNode) (v : String) :
    colorRun (fuel + 1) (ColorEvent.rgbSet v) s =
      colorRun fuel ColorEvent.notifyRgb { s with rgbVal := v } := rfl

theorem colorRun_warmSet_succ (fuel : Nat) (s : ColorNode) (v : ℚ) :
    colorRun (fuel + 1) (ColorEvent.warmSet v) s =
      colorRun fuel ColorEvent.notifyWarm { s with warmVal := v } := rfl

theorem colorRun_coolSet_succ (fuel : Nat) (s : ColorNode) (v : ℚ) :
    colorRun (fuel + 1) (ColorEvent.coolSet v) s =
      colorRun fuel ColorEvent.notifyCool { s with coolVal := v } := rfl

theorem colorRun_notifyHex_succ (fuel : Nat) (s : ColorNode) :
    colorRun (fuel + 1) ColorEvent.notifyHex s =
      if s.hexUpdating then s
      else { colorRun fuel ColorEvent.hexUpdated { s with hexUpdating := true }
             with hexUpdating := false } := rfl

theorem colorRun_notifyRgb_succ (fuel : Nat) (s : ColorNode) :
    colorRun (fuel + 1) ColorEvent.notifyRgb s =
      if !s.hasRgb then s
      else if s.rgbUpdating then s
      else { colorRun fuel ColorEvent.rgbUpdated { s with rgbUpdating := true }
             with rgbUpdating := false } := rfl

theorem colorRun_notifyWarm_succ (fuel : Nat) (s : ColorNode) :
    colorRun (fuel + 1) ColorEvent.notifyWarm s =
      if !s.hasWarm then s
      else if s.warmUpdating then s
      else { colorRun fuel ColorEvent.warmUpdated { s with warmUpdating := true }
             with warmUpdating := false } := rfl

theorem colorRun_notifyCool_succ (fuel : Nat) (s : ColorNode) :
    colorRun (fuel + 1) ColorEvent.notifyCool s =
      if !s.hasCool then s
      else if s.coolUpdating then s
      else { colorRun fuel ColorEvent.coolUpdated { s with coolUpdating := true }
             with coolUpdating := false } := rfl

theorem colorRun_hexUpdated_succ (fuel : Nat) (s : ColorNode) :
    colorRun (fuel + 1) ColorEvent.hexUpdated s =
      colorRun fuel ColorEvent.hexUpdCool
        (colorRun fuel ColorEvent.hexUpdWarm
          (colorRun fuel ColorEvent.hexUpdRgb s)) := rfl

theorem colorRun_rgbUpdated_succ (fuel : Nat) (s : ColorNode) :
    colorRun (fuel + 1) ColorEvent.rgbUpdated s =
      (if s.updatingColorHex then s
       else
         let s1 := { s with updatingColorHex := true }
         let zwData := s1.rgbVal ++ "0000"
         let s2 := if s1.hexVal ≠ zwData then
             colorRun fuel (ColorEvent.hexSet zwData) s1
           else s1
         { s2 with updatingColorHex := false }) := rfl

theorem colorRun_warmUpdated_succ (fuel : Nat) (s : ColorNode) :
    colorRun (fuel + 1) ColorEvent.warmUpdated s =
      (if s.updatingColorHex then s
       else
         let s1 := { s with updatingColorHex := true }
         let p := levelToHex s1.warmVal
         let s2 := { s1 with warmVal := p.2 }
         let zwData := "#000000" ++ p.1 ++ "00"
         let s3 := if s2.hexVal ≠ zwData then
             colorRun fuel (ColorEvent.hexSet zwData) s2
           else s2
         { s3 with updatingColorHex := false }) := rfl

theorem colorRun_coolUpdated_succ (fuel : Nat) (s : ColorNode) :
    colorRun (fuel + 1) ColorEvent.coolUpdated s =
      (if s.updatingColorHex then s
       else
         let s1 := { s with updatingColorHex := true }
         let p := levelToHex s1.coolVal
         let s2 := { s1 with coolVal := p.2 }
         let zwData := "#00000000" ++ p.1
         let s3 := if s2.hexVal ≠ zwData then
             colorRun fuel (ColorEvent.hexSet zwData) s2
           else s2
         { s3 with updatingColorHex := false }) := rfl

set_option maxHeartbeats 1000000 in
/-- First statement of the hex hook under the guard: the rgb channel is set
to the decode of the packed value, nothing else changes, no write occurs. -/
theorem colorRun_guard_hexUpdRgb (fuel : Nat) (s : ColorNode)
    (h : s.updatingColorHex = true) :
    colorRun (fuel + 2) ColorEvent.hexUpdRgb s =
      { s with rgbVal := if s.hasRgb then jsSubstr s.hexVal 0 7
                         else s.rgbVal } := by
  obtain ⟨hxv, rbv, wmv, clv, uch, hxu, rbu, wmu, clu, wr, hasR, hasW, hasC,
    hvid⟩ := s
  have huch : uch = true := h
  subst huch
  show (if hasR then
          if rbv ≠ jsSubstr hxv 0 7 then
            colorRun (fuel + 1)
              (ColorEvent.rgbSet (jsSubstr hxv 0 7))
              ⟨hxv, rbv, wmv, clv, true, hxu, rbu, wmu, clu, wr, hasR, hasW,
               hasC, hvid⟩
          else ⟨hxv, rbv, wmv, clv, true, hxu, rbu, wmu, clu, wr, hasR, hasW,
                hasC, hvid⟩
        else ⟨hxv, rbv, wmv, clv, true, hxu, rbu, wmu, clu, wr, hasR, hasW,
              hasC, hvid⟩) = _
  generalize jsSubstr hxv 0 7 = d1
  cases hasR with
  | false => rfl
  | true =>
    by_cases h1 : rbv ≠ d1
    · rw [if_pos rfl, if_pos h1, colorRun_guard_rgbSet fuel _ _ rfl]
      rfl
    · rw [if_pos rfl, if_neg h1]
      push_neg at h1
      rw [h1]
      rfl

set_option maxHeartbeats 1000000 in
theorem colorRun_guard_hexUpdWarm (fuel : Nat) (s : ColorNode)
    (h : s.updatingColorHex = true) :
    colorRun (fuel + 2) ColorEvent.hexUpdWarm s =
      { s with warmVal := if s.hasWarm then
            parseHex2 (jsSubstr s.hexVal 7 2) * 100 / 255
          else s.warmVal } := by
  obtain ⟨hxv, rbv, wmv, clv, uch, hxu, rbu, wmu, clu, wr, hasR, hasW, hasC,
    hvid⟩ := s
  have huch : uch = true := h
  subst huch
  show (if hasW then
          if wmv ≠ parseHex2 (jsSubstr hxv 7 2) * 100 / 255 then
            colorRun (fuel + 1)
              (ColorEvent.warmSet (parseHex2 (jsSubstr hxv 7 2) * 100 / 255))
              ⟨hxv, rbv, wmv, clv, true, hxu, rbu, wmu, clu, wr, hasR, hasW,
               hasC, hvid⟩
          else ⟨hxv, rbv, wmv, clv, true, hxu, rbu, wmu, clu, wr, hasR, hasW,
                hasC, hvid⟩
        else ⟨hxv, rbv, wmv, clv, true, hxu, rbu, wmu, clu, wr, hasR, hasW,
              hasC, hvid⟩) = _
  generalize parseHex2 (jsSubstr hxv 7 2) * 100 / 255 = d2
  cases hasW with
  | false => rfl
  | true =>
    by_cases h1 : wmv ≠ d2
    · rw [if_pos rfl, if_pos h1, colorRun_guard_warmSet fuel _ _ rfl]
      rfl
    · rw [if_pos rfl, if_neg h1]
      push_neg at h1
      rw [h1]
      rfl

set_option maxHeartbeats 1000000 in
theorem colorRun_guard_hexUpdCool (fuel : Nat) (s : ColorNode)
    (h : s.updatingColorHex = true) :
    colorRun (fuel + 2) ColorEvent.hexUpdCool s =
      { s with coolVal := if s.hasCool then
            parseHex2 (jsSubstr s.hexVal 9 2) * 100 / 255
          else s.coolVal } := by
  obtain ⟨hxv, rbv, wmv, clv, uch, hxu, rbu, wmu, clu, wr, hasR, hasW, hasC,
    hvid⟩ := s
  have huch : uch = true := h
  subst huch
  show (if hasC then
          if clv ≠ parseHex2 (jsSubstr hxv 9 2) * 100 / 255 then
            colorRun (fuel + 1)
              (ColorEvent.coolSet (parseHex2 (jsSubstr hxv 9 2) * 100 / 255))
              ⟨hxv, rbv, wmv, clv, true, hxu, rbu, wmu, clu, wr, hasR, hasW,
               hasC, hvid⟩
          else ⟨hxv, rbv, wmv, clv, true, hxu, rbu, wmu, clu, wr, hasR, hasW,
                hasC, hvid⟩
        else ⟨hxv, rbv, wmv, clv, true, hxu, rbu, wmu, clu, wr, hasR, hasW,
              hasC, hvid⟩) = _
  generalize parseHex2 (jsSubstr hxv 9 2) * 100 / 255 = d3
  cases hasC with
  | false => rfl
  | true =>
    by_cases h1 : clv ≠ d3
    · rw [if_pos rfl, if_pos h1, colorRun_guard_coolSet fuel _ _ rfl]
      rfl
    · rw [if_pos rfl, if_neg h1]
      push_neg at h1
      rw [h1]
      rfl

/-- Running the packed-value decode hook with the guard set: each existing
channel is set to the decode of the packed value, and nothing else changes —
in particular no raw write is issued because every channel hook it triggers
returns immediately. -/
theorem colorRun_guard_hexUpdated (fuel : Nat) (s : ColorNode)
    (h : s.updatingColorHex = true) :
    colorRun (fuel + 3) ColorEvent.hexUpdated s =
      { s with
        rgbVal := if s.hasRgb then jsSubstr s.hexVal 0 7 else s.rgbVal,
        warmVal := if s.hasWarm then
            parseHex2 (jsSubstr s.hexVal 7 2) * 100 / 255 else s.warmVal,
        coolVal := if s.hasCool then
            parseHex2 (jsSubstr s.hexVal 9 2) * 100 / 255 else s.coolVal } := by
  rw [colorRun_hexUpdated_succ, colorRun_guard_hexUpdRgb fuel s h,
    colorRun_guard_hexUpdWarm fuel
      { s with rgbVal := if s.hasRgb = true then jsSubstr s.hexVal 0 7
               else s.rgbVal } h,
    colorRun_guard_hexUpdCool fuel
      { s with rgbVal := if s.hasRgb = true then jsSubstr s.hexVal 0 7
                 else s.rgbVal,
               warmVal := if s.hasWarm = true then
                   parseHex2 (jsSubstr s.hexVal 7 2) * 100 / 255
                 else s.warmVal } h]

/-- `_colorHex.setValue` issued while the guard is set: exactly one raw
write (when the packed raw value exists), the cached packed value and the
channel decodes are updated, and nothing re-enters — the channel hooks fired
by the decode all return under the guard. -/
theorem colorRun_guard_hexSet (fuel : Nat) (s : ColorNode) (v : String)
    (h : s.updatingColorHex = true) (hh : s.hexUpdating = false) :
    colorRun (fuel + 5) (ColorEvent.hexSet v) s =
      { s with
        hexVal := v,
        hexWrites := s.hexWrites ++ (if s.hexValueId then [v] else []),
        rgbVal := if s.hasRgb then jsSubstr v 0 7 else s.rgbVal,
        warmVal := if s.hasWarm then
            parseHex2 (jsSubstr v 7 2) * 100 / 255 else s.warmVal,
        coolVal := if s.hasCool then
            parseHex2 (jsSubstr v 9 2) * 100 / 255 else s.coolVal } := by
  obtain ⟨hxv, rbv, wmv, clv, uch, hxu, rbu, wmu, clu, wr, hasR, hasW, hasC,
    hvid⟩ := s
  have e1 : uch = true := h
  subst e1
  have e2 : hxu = false := hh
  subst e2
  rw [show fuel + 5 = (fuel + 4) + 1 from rfl, colorRun_hexSet_succ,
    show fuel + 4 = (fuel + 3) + 1 from rfl, colorRun_notifyHex_succ]
  show ({ colorRun (fuel + 3) ColorEvent.hexUpdated
            ⟨v, rbv, wmv, clv, true, true, rbu, wmu, clu,
             wr ++ (if hvid then [v] else []), hasR, hasW, hasC, hvid⟩
          with hexUpdating := false }) = _
  rw [colorRun_guard_hexUpdated fuel _ rfl]

/-- The decode hook's statements are no-ops when every existing channel
already holds the decode of the packed value. -/
theorem colorRun_synced_hexUpdRgb (fuel : Nat) (s : ColorNode)
    (h1 : s.hasRgb = true → s.rgbVal = jsSubstr s.hexVal 0 7) :
    colorRun fuel ColorEvent.hexUpdRgb s = s := by
  cases fuel with
  | zero => rfl
  | succ fuel =>
    show (if s.hasRgb then
            if s.rgbVal ≠ jsSubstr s.hexVal 0 7 then
              colorRun fuel (ColorEvent.rgbSet (jsSubstr s.hexVal 0 7)) s
            else s
          else s) = s
    cases hR : s.hasRgb with
    | false => rfl
    | true => rw [if_pos rfl, if_neg (fun hne => hne (h1 hR))]

theorem colorRun_synced_hexUpdWarm (fuel : Nat) (s : ColorNode)
    (h2 : s.hasWarm = true →
       s.warmVal = parseHex2 (jsSubstr s.hexVal 7 2) * 100 / 255) :
    colorRun fuel ColorEvent.hexUpdWarm s = s := by
  cases fuel with
  | zero => rfl
  | succ fuel =>
    show (if s.hasWarm then
            if s.warmVal ≠ parseHex2 (jsSubstr s.hexVal 7 2) * 100 / 255 then
              colorRun fuel
                (ColorEvent.warmSet (parseHex2 (jsSubstr s.hexVal 7 2) * 100 / 255)) s
            else s
          else s) = s
    cases hW : s.hasWarm with
    | false => rfl
    | true => rw [if_pos rfl, if_neg (fun hne => hne (h2 hW))]

theorem colorRun_synced_hexUpdCool (fuel : Nat) (s : ColorNode)
    (h3 : s.hasCool = true →
       s.coolVal = parseHex2 (jsSubstr s.hexVal 9 2) * 100 / 255) :
    colorRun fuel ColorEvent.hexUpdCool s = s := by
  cases fuel with
  | zero => rfl
  | succ fuel =>
    show (if s.hasCool then
            if s.coolVal ≠ parseHex2 (jsSubstr s.hexVal 9 2) * 100 / 255 then
              colorRun fuel
                (ColorEvent.coolSet (parseHex2 (jsSubstr s.hexVal 9 2) * 100 / 255)) s
            else s
          else s) = s
    cases hC : s.hasCool with
    | false => rfl
    | true => rw [if_pos rfl, if_neg (fun hne => hne (h3 hC))]

theorem colorRun_synced_hexUpdated (fuel : Nat) (s : ColorNode)
    (h1 : s.hasRgb = true → s.rgbVal = jsSubstr s.hexVal 0 7)
    (h2 : s.hasWarm = true →
       s.warmVal = parseHex2 (jsSubstr s.hexVal 7 2) * 100 / 255)
    (h3 : s.hasCool = true →
       s.coolVal = parseHex2 (jsSubstr s.hexVal 9 2) * 100 / 255) :
    colorRun fuel ColorEvent.hexUpdated s = s := by
  cases fuel with
  | zero => rfl
  | succ fuel =>
    rw [colorRun_hexUpdated_succ, colorRun_synced_hexUpdRgb fuel s h1,
      colorRun_synced_hexUpdWarm fuel s h2, colorRun_synced_hexUpdCool fuel s h3]

/-- A raw notification for the packed value on a synced node re-runs the
decode hook, which changes nothing and issues no write. -/
theorem colorRun_synced_notifyHex (fuel : Nat) (s : ColorNode)
    (h1 : s.hasRgb = true → s.rgbVal = jsSubstr s.hexVal 0 7)
    (h2 : s.hasWarm = true →
       s.warmVal = parseHex2 (jsSubstr s.hexVal 7 2) * 100 / 255)
    (h3 : s.hasCool = true →
       s.coolVal = parseHex2 (jsSubstr s.hexVal 9 2) * 100 / 255)
    (hh : s.hexUpdating = false) :
    colorRun fuel ColorEvent.notifyHex s = s := by
  cases fuel with
  | zero => rfl
  | succ fuel =>
    rw [colorRun_notifyHex_succ, if_neg (by rw [hh]; exact Bool.false_ne_true)]
    rw [colorRun_synced_hexUpdated fuel { s with hexUpdating := true }
      h1 h2 h3]
    rw [← hh]

/-- An external set of the `color` channel cascades into at most one raw
write of the packed value. -/
theorem setRgb_cascade_writes (s : ColorNode) (v : String)
    (hsync : ColorSynced s) :
    (setRgbExternal s v).hexWrites.length ≤ s.hexWrites.length + 1 := by
  obtain ⟨h1, h2, h3, huch, hhx, hru, hwu, hcu⟩ := hsync
  obtain ⟨hxv, rbv, wmv, clv, uch, hxu, rbu, wmu, clu, wr, hasR, hasW, hasC,
    hvid⟩ := s
  have e1 : uch = false := huch
  subst e1
  have e2 : hxu = false := hhx
  subst e2
  have e3 : rbu = false := hru
  subst e3
  show (colorRun (15 + 1) (ColorEvent.rgbSet v)
      ⟨hxv, rbv, wmv, clv, false, false, false, wmu, clu, wr, hasR, hasW,
       hasC, hvid⟩).hexWrites.length ≤ wr.length + 1
  rw [colorRun_rgbSet_succ, show (15:Nat) = 14 + 1 from rfl,
    colorRun_notifyRgb_succ]
  cases hasR with
  | false =>
    show wr.length ≤ wr.length + 1
    omega
  | true =>
    show (colorRun (13 + 1) ColorEvent.rgbUpdated
        ⟨hxv, v, wmv, clv, false, false, true, wmu, clu, wr, true, hasW,
         hasC, hvid⟩).hexWrites.length ≤ wr.length + 1
    rw [colorRun_rgbUpdated_succ]
    show ((if hxv ≠ v ++ "0000" then
             colorRun 13 (ColorEvent.hexSet (v ++ "0000"))
               ⟨hxv, v, wmv, clv, true, false, true, wmu, clu, wr, true,
                hasW, hasC, hvid⟩
           else ⟨hxv, v, wmv, clv, true, false, true, wmu, clu, wr, true,
                 hasW, hasC, hvid⟩)).hexWrites.length ≤ wr.length + 1
    by_cases hq : hxv ≠ v ++ "0000"
    · rw [if_pos hq, show (13:Nat) = 8 + 5 from rfl,
        colorRun_guard_hexSet 8 _ _ rfl rfl]
      show (wr ++ (if hvid = true then [v ++ "0000"] else [])).length ≤
        wr.length + 1
      cases hvid <;> simp
    · rw [if_neg hq]
      show wr.length ≤ wr.length + 1
      omega

/-- An external set of the `warmLevel` channel cascades into at most one
raw write of the packed value. -/
theorem setWarm_cascade_writes (s : ColorNode) (w : ℚ)
    (hsync : ColorSynced s) :
    (setWarmExternal s w).hexWrites.length ≤ s.hexWrites.length + 1 := by
  obtain ⟨h1, h2, h3, huch, hhx, hru, hwu, hcu⟩ := hsync
  obtain ⟨hxv, rbv, wmv, clv, uch, hxu, rbu, wmu, clu, wr, hasR, hasW, hasC,
    hvid⟩ := s
  have e1 : uch = false := huch
  subst e1
  have e2 : hxu = false := hhx
  subst e2
  have e3 : wmu = false := hwu
  subst e3
  show (colorRun (15 + 1) (ColorEvent.warmSet w)
      ⟨hxv, rbv, wmv, clv, false, false, rbu, false, clu, wr, hasR, hasW,
       hasC, hvid⟩).hexWrites.length ≤ wr.length + 1
  rw [colorRun_warmSet_succ, show (15:Nat) = 14 + 1 from rfl,
    colorRun_notifyWarm_succ]
  cases hasW with
  | false =>
    show wr.length ≤ wr.length + 1
    omega
  | true =>
    show (colorRun (13 + 1) ColorEvent.warmUpdated
        ⟨hxv, rbv, w, clv, false, false, rbu, true, clu, wr, hasR, true,
         hasC, hvid⟩).hexWrites.length ≤ wr.length + 1
    rw [colorRun_warmUpdated_succ]
    show ((if hxv ≠ "#000000" ++ (levelToHex w).1 ++ "00" then
             colorRun 13
               (ColorEvent.hexSet ("#000000" ++ (levelToHex w).1 ++ "00"))
               ⟨hxv, rbv, (levelToHex w).2, clv, true, false, rbu, true, clu,
                wr, hasR, true, hasC, hvid⟩
           else ⟨hxv, rbv, (levelToHex w).2, clv, true, false, rbu, true,
                 clu, wr, hasR, true, hasC, hvid⟩)).hexWrites.length ≤
      wr.length + 1
    by_cases hq : hxv ≠ "#000000" ++ (levelToHex w).1 ++ "00"
    · rw [if_pos hq, show (13:Nat) = 8 + 5 from rfl,
        colorRun_guard_hexSet 8 _ _ rfl rfl]
      show (wr ++ (if hvid = true then
          ["#000000" ++ (levelToHex w).1 ++ "00"] else [])).length ≤
        wr.length + 1
      cases hvid <;> simp
    · rw [if_neg hq]
      show wr.length ≤ wr.length + 1
      omega

/-- An external set of the `coolLevel` channel cascades into at most one
raw write of the packed value. -/
theorem setCool_cascade_writes (s : ColorNode) (w : ℚ)
    (hsync : ColorSynced s) :
    (setCoolExternal s w).hexWrites.length ≤ s.hexWrites.length + 1 := by
  obtain ⟨h1, h2, h3, huch, hhx, hru, hwu, hcu⟩ := hsync
  obtain ⟨hxv, rbv, wmv, clv, uch, hxu, rbu, wmu, clu, wr, hasR, hasW, hasC,
    hvid⟩ := s
  have e1 : uch = false := huch
  subst e1
  have e2 : hxu = false := hhx
  subst e2
  have e3 : clu = false := hcu
  subst e3
  show (colorRun (15 + 1) (ColorEvent.coolSet w)
      ⟨hxv, rbv, wmv, clv, false, false, rbu, wmu, false, wr, hasR, hasW,
       hasC, hvid⟩).hexWrites.length ≤ wr.length + 1
  rw [colorRun_coolSet_succ, show (15:Nat) = 14 + 1 from rfl,
    colorRun_notifyCool_succ]
  cases hasC with
  | false =>
    show wr.length ≤ wr.length + 1
    omega
  | true =>
    show (colorRun (13 + 1) ColorEvent.coolUpdated
        ⟨hxv, rbv, wmv, w, false, false, rbu, wmu, true, wr, hasR, hasW,
         true, hvid⟩).hexWrites.length ≤ wr.length + 1
    rw [colorRun_coolUpdated_succ]
    show ((if hxv ≠ "#00000000" ++ (levelToHex w).1 then
             colorRun 13
               (ColorEvent.hexSet ("#00000000" ++ (levelToHex w).1))
               ⟨hxv, rbv, wmv, (levelToHex w).2, true, false, rbu, wmu, true,
                wr, hasR, hasW, true, hvid⟩
           else ⟨hxv, rbv, wmv, (levelToHex w).2, true, false, rbu, wmu,
                 true, wr, hasR, hasW, true, hvid⟩)).hexWrites.length ≤
      wr.length + 1
    by_cases hq : hxv ≠ "#00000000" ++ (levelToHex w).1
    · rw [if_pos hq, show (13:Nat) = 8 + 5 from rfl,
        colorRun_guard_hexSet 8 _ _ rfl rfl]
      show (wr ++ (if hvid = true then
          ["#00000000" ++ (levelToHex w).1] else [])).length ≤ wr.length + 1
      cases hvid <;> simp
    · rw [if_neg hq]
      show wr.length ≤ wr.length + 1
      omega

/-- C9: the re-entrancy guards of the light color composition.  (a) Any
channel hook (`color`, `warmLevel`, `coolLevel`) entered while
`node.updatingColorHex` is set returns without changing state or writing —
so a channel update performed as a consequence of decoding the packed value
never encodes back into it.  (b) A raw packed-value notification on a
synced node re-runs the decode hook and leaves state and write log
unchanged.  (c) An external set of any channel cascades into at most one
write of the packed value: the decode it triggers re-invokes the channel
hooks, but the `updatingColorHex` flag and the per-property `updating` flag
make a second encode unreachable. -/
theorem C9_color_reentrancy (s : ColorNode) (v : String) (w : ℚ) :
    (s.updatingColorHex = true →
       (∀ fuel, colorRun fuel ColorEvent.rgbUpdated s = s) ∧
       (∀ fuel, colorRun fuel ColorEvent.warmUpdated s = s) ∧
       (∀ fuel, colorRun fuel ColorEvent.coolUpdated s = s)) ∧
    (ColorSynced s → rawHexNotification s = s) ∧
    (ColorSynced s →
       (setRgbExternal s v).hexWrites.length ≤ s.hexWrites.length + 1 ∧
       (setWarmExternal s w).hexWrites.length ≤ s.hexWrites.length + 1 ∧
       (setCoolExternal s w).hexWrites.length ≤ s.hexWrites.length + 1) := by
  refine ⟨?_, ?_, ?_⟩
  · intro h
    exact ⟨fun fuel => colorRun_guard_rgbUpdated fuel s h,
           fun fuel => colorRun_guard_warmUpdated fuel s h,
           fun fuel => colorRun_guard_coolUpdated fuel s h⟩
  · rintro ⟨h1, h2, h3, -, hhx, -, -, -⟩
    exact colorRun_synced_notifyHex colorCascadeFuel s h1 h2 h3 hhx
  · intro hsync
    exact ⟨setRgb_cascade_writes s v hsync, setWarm_cascade_writes s w hsync,
           setCool_cascade_writes s w hsync⟩

/-- A synced light with all three channels and a bound packed raw value. -/
def syncedLight : ColorNode :=
  { hexVal := "#0000000000", rgbVal := "#000000", warmVal := 0, coolVal := 0,
    updatingColorHex := false, hexUpdating := false, rgbUpdating := false,
    warmUpdating := false, coolUpdating := false, hexWrites := [],
    hasRgb := true, hasWarm := true, hasCool := true, hexValueId := true }

theorem syncedLight_is_synced : ColorSynced syncedLight := by
  refine ⟨fun _ => by decide, fun _ => ?_, fun _ => ?_, rfl, rfl, rfl, rfl,
    rfl⟩
  · show (0:ℚ) = parseHex2 (jsSubstr "#0000000000" 7 2) * 100 / 255
    rw [show jsSubstr "#0000000000" 7 2 = "00" from by decide]
    simp [parseHex2, show hexDigitVal '0' = 0 from by decide]
  · show (0:ℚ) = parseHex2 (jsSubstr "#0000000000" 9 2) * 100 / 255
    rw [show jsSubstr "#0000000000" 9 2 = "00" from by decide]
    simp [parseHex2, show hexDigitVal '0' = 0 from by decide]

theorem C9_color_reentrancy_witness :
    rawHexNotification syncedLight = syncedLight ∧
    (setRgbExternal syncedLight "#112233").hexWrites.length ≤ 1 :=
  ⟨(C9_color_reentrancy syncedLight "#112233" 50).2.1 syncedLight_is_synced,
   ((C9_color_reentrancy syncedLight "#112233" 50).2.2
      syncedLight_is_synced).1⟩

end ZWaveAdapter
